import Mathlib

/-
Verification development for novelda/proximity-demos (CC2340R5 BLE application).

Embedded sources:
  ble_app_CC2340R5/app/Profiles/proximity_service.c  (the GATT profile)
  ble_app_CC2340R5/app/Profiles/proximity_service.h  (parameter ids, UUIDs)
  ble_app_CC2340R5/app/app_proximity.c               (application callbacks)
  ble_app_CC2340R5/app/proximity.h                   (driver interface, ranges)

Conventions of the embedding.
  * C integers are natural numbers; a store into a uint8_t object keeps the
    value modulo 256 and a store into a uint16_t object keeps it modulo 65536.
  * The file-scope statics of proximity_service.c form the record Profile;
    every function that touches them takes and returns that record.
  * Calls into the sensor driver are appended to a call log, newest last.
  * Display_printf and GPIO_write only produce output and are left out.
-/

namespace ProximityDemos

/-! ### Constants of proximity_service.h and proximity.h -/

abbrev PROXIMITYPROFILE_DETECTION : Nat := 0
abbrev PROXIMITYPROFILE_RANGE : Nat := 1
abbrev PROXIMITYPROFILE_SENSITIVITY : Nat := 2
abbrev PROXIMITYPROFILE_TIMEOUT : Nat := 3

abbrev PROXIMITYPROFILE_SERV_UUID : Nat := 0x20F1
abbrev PROXIMITYPROFILE_DETECTION_UUID : Nat := 0x2BAD
abbrev PROXIMITYPROFILE_RANGE_UUID : Nat := 0x2BB1
abbrev PROXIMITYPROFILE_SENSITIVITY_UUID : Nat := 0x2BB2
abbrev PROXIMITYPROFILE_TIMEOUT_UUID : Nat := 0x2BB3

abbrev DEFAULT_SENSITIVITY : Nat := 3
abbrev MIN_SENSITIVITY_VALUE : Nat := 1
abbrev MAX_SENSITIVITY_VALUE : Nat := 6
abbrev MIN_RANGE_VALUE : Nat := 20
abbrev MAX_RANGE_VALUE : Nat := 200
abbrev DEFAULT_RANGE : Nat := 150
abbrev PRESENCE_TIME_OUT_MS : Nat := 10000

/-! ### Names taken from the BLE stack headers (not part of this repository) -/

/-- Size in bytes of a 16-bit Bluetooth UUID (stack constant ATT_BT_UUID_SIZE). -/
abbrev ATT_BT_UUID_SIZE : Nat := 2

/-- Bluetooth assigned number of the client characteristic configuration
descriptor (stack constant GATT_CLIENT_CHAR_CFG_UUID). -/
abbrev GATT_CLIENT_CHAR_CFG_UUID : Nat := 0x2902

/-- Stack macro BUILD_UINT16(loByte, hiByte): both arguments are masked with
0x00FF and the result is cast to a 16-bit integer. -/
def BUILD_UINT16 (loByte hiByte : Nat) : Nat :=
  (loByte % 256 + (hiByte % 256) * 256) % 65536

/-- The status codes of type bStatus_t that the embedded functions name. They
are pairwise different bytes in the stack headers; only their identity is
used, so they are the constructors of an enumeration. -/
inductive bStatus_t where
  | SUCCESS
  | FAILURE
  | INVALIDPARAMETER
  | bleInvalidRange
  | bleAlreadyInRequestedMode
  | ATT_ERR_INVALID_HANDLE
  | ATT_ERR_ATTR_NOT_FOUND
  | ATT_ERR_ATTR_NOT_LONG
  | ATT_ERR_INVALID_VALUE_SIZE
  deriving DecidableEq, Repr

open bStatus_t

/-! ### The sensor driver (declared in proximity.h) -/

/-- One call into the sensor driver, with its argument after conversion to
the parameter type declared in proximity.h. -/
inductive DriverCall where
  | startSensor
  | stopSensor
  | setRange (range : Nat)
  | setSensitivity (sens : Nat)
  | setPresenceTimeout (tmout : Nat)
  deriving DecidableEq, Repr

/-- Modelled from the spec: the sensor driver behind proximity.h is not among
the sources. Its state is the configuration the accessors report (range,
sensitivity, timeout), whether the sensor runs, and the log of calls it
received. -/
structure Driver where
  range : Nat
  sensitivity : Nat
  timeout : Nat
  running : Bool
  calls : List DriverCall
  deriving DecidableEq, Repr

/-- Modelled from the spec: startSensor of the absent driver; the sensor runs
afterwards and the call is logged. -/
def startSensor (d : Driver) : Driver :=
  { d with running := true, calls := d.calls ++ [DriverCall.startSensor] }

/-- Modelled from the spec: stopSensor of the absent driver; the sensor is
stopped afterwards and the call is logged. -/
def stopSensor (d : Driver) : Driver :=
  { d with running := false, calls := d.calls ++ [DriverCall.stopSensor] }

/-- Modelled from the spec: setRange(uint16_t) of the absent driver; the
driver keeps the value and the call is logged. -/
def setRange (d : Driver) (range : Nat) : Driver :=
  { d with range := range % 65536,
           calls := d.calls ++ [DriverCall.setRange (range % 65536)] }

/-- Modelled from the spec: setSensitivity(uint8_t) of the absent driver; the
driver keeps the value and the call is logged. -/
def setSensitivity (d : Driver) (sens : Nat) : Driver :=
  { d with sensitivity := sens % 256,
           calls := d.calls ++ [DriverCall.setSensitivity (sens % 256)] }

/-- Modelled from the spec: setPresenceTimeout(uint16_t) of the absent driver;
the driver keeps the value and the call is logged. -/
def setPresenceTimeout (d : Driver) (tmout : Nat) : Driver :=
  { d with timeout := tmout % 65536,
           calls := d.calls ++ [DriverCall.setPresenceTimeout (tmout % 65536)] }

/-- Modelled from the spec: getRange of the absent driver returns the range
the driver currently holds. -/
def getRange (d : Driver) : Nat := d.range

/-- Modelled from the spec: getSensitivity of the absent driver returns the
sensitivity the driver currently holds. -/
def getSensitivity (d : Driver) : Nat := d.sensitivity

/-- Modelled from the spec: getTimeout of the absent driver returns the
presence timeout the driver currently holds. -/
def getTimeout (d : Driver) : Nat := d.timeout

/-- A driver that has received no call yet, holding the defaults of
proximity.h. -/
def Driver.fresh : Driver :=
  { range := DEFAULT_RANGE, sensitivity := DEFAULT_SENSITIVITY,
    timeout := PRESENCE_TIME_OUT_MS, running := false, calls := [] }

/-! ### proximity_service.c : state -/

/-- The file-scope statics of proximity_service.c. The field notified is the
log of the values handed to GATTServApp_ProcessCharCfg (the notification of
the Detection characteristic to subscribed peers), newest last. The field
proximityProfile_appCBs is true when a callback table with a non-null
pfnProximityProfile_Change is registered. -/
structure Profile where
  proximityProfile_Detection : Nat
  proximityProfile_Range : Nat
  proximityProfile_Sensitivity : Nat
  proximityProfile_Timeout : Nat
  proximityProfile_appCBs : Bool
  notified : List Nat
  deriving DecidableEq, Repr

/-- The statics as the C initialisers leave them (proximity_service.c 35-56). -/
def Profile.init : Profile :=
  { proximityProfile_Detection := 0, proximityProfile_Range := 0,
    proximityProfile_Sensitivity := 0, proximityProfile_Timeout := 0,
    proximityProfile_appCBs := false, notified := [] }

/-- The part of gattAttribute_t the callbacks read: type.len and the first
two bytes of type.uuid. The pointer pValue is resolved through
proximityProfile_attrTbl, where the attribute with the Detection, Range,
Sensitivity or Timeout UUID points to the static of the same name. -/
structure gattAttribute_t where
  type_len : Nat
  uuid0 : Nat
  uuid1 : Nat
  deriving DecidableEq, Repr

/-- Attribute table entry of the Detection characteristic value. -/
def detectionAttr : gattAttribute_t := ⟨ATT_BT_UUID_SIZE, 0xAD, 0x2B⟩
/-- Attribute table entry of the Range characteristic value. -/
def rangeAttr : gattAttribute_t := ⟨ATT_BT_UUID_SIZE, 0xB1, 0x2B⟩
/-- Attribute table entry of the Sensitivity characteristic value. -/
def sensitivityAttr : gattAttribute_t := ⟨ATT_BT_UUID_SIZE, 0xB2, 0x2B⟩
/-- Attribute table entry of the Timeout characteristic value. -/
def timeoutAttr : gattAttribute_t := ⟨ATT_BT_UUID_SIZE, 0xB3, 0x2B⟩

/-- Value of a 16-bit little-endian object after its byte i (0 or 1) is
overwritten with b. -/
def setByte16 (v i b : Nat) : Nat :=
  if i = 0 then (v / 256 % 256) * 256 + b % 256
  else (b % 256) * 256 + v % 256

/-- The assignment pAttr->pValue[i] = b for the attribute whose UUID is uuid:
the byte lands in the static the attribute table binds to that UUID. Range and
Timeout are 16-bit objects, Detection and Sensitivity are single bytes. -/
def pValue_storeByte (p : Profile) (uuid i b : Nat) : Profile :=
  if uuid = PROXIMITYPROFILE_RANGE_UUID then
    { p with proximityProfile_Range := setByte16 p.proximityProfile_Range i b }
  else if uuid = PROXIMITYPROFILE_TIMEOUT_UUID then
    { p with proximityProfile_Timeout := setByte16 p.proximityProfile_Timeout i b }
  else if uuid = PROXIMITYPROFILE_SENSITIVITY_UUID then
    if i = 0 then { p with proximityProfile_Sensitivity := b % 256 } else p
  else if uuid = PROXIMITYPROFILE_DETECTION_UUID then
    if i = 0 then { p with proximityProfile_Detection := b % 256 } else p
  else p

/-- The assignment of a 16-bit value v through (uint16_t * )pAttr->pValue for
the attribute whose UUID is uuid. -/
def pValue_storeU16 (p : Profile) (uuid v : Nat) : Profile :=
  if uuid = PROXIMITYPROFILE_RANGE_UUID then
    { p with proximityProfile_Range := v % 65536 }
  else if uuid = PROXIMITYPROFILE_TIMEOUT_UUID then
    { p with proximityProfile_Timeout := v % 65536 }
  else p

/-! ### proximity_service.c : functions -/

/-- ProximityProfile_registerAppCBs (proximity_service.c 163-174); the argument
tells whether the pointer passed is non-null. -/
def ProximityProfile_registerAppCBs (p : Profile) (appCallbacks : Bool) :
    bStatus_t × Profile :=
  if appCallbacks then (SUCCESS, { p with proximityProfile_appCBs := true })
  else (bleAlreadyInRequestedMode, p)

/-- ProximityProfile_setParameter (proximity_service.c 185-246). The argument
value is the integer found behind the pointer; it is read with the width of
the parameter. -/
def ProximityProfile_setParameter (p : Profile) (param len value : Nat) :
    bStatus_t × Profile :=
  if param = PROXIMITYPROFILE_DETECTION then
    if len = 1 then
      (SUCCESS, { p with proximityProfile_Detection := value % 256,
                         notified := p.notified ++ [value % 256] })
    else (bleInvalidRange, p)
  else if param = PROXIMITYPROFILE_RANGE then
    if len = 2 then (SUCCESS, { p with proximityProfile_Range := value % 65536 })
    else (bleInvalidRange, p)
  else if param = PROXIMITYPROFILE_SENSITIVITY then
    if len = 1 then (SUCCESS, { p with proximityProfile_Sensitivity := value % 256 })
    else (bleInvalidRange, p)
  else if param = PROXIMITYPROFILE_TIMEOUT then
    if len = 2 then (SUCCESS, { p with proximityProfile_Timeout := value % 65536 })
    else (bleInvalidRange, p)
  else (INVALIDPARAMETER, p)

/-- ProximityProfile_getParameter (proximity_service.c 255-284). The second
component is the value written through the pointer, none when nothing is
written. -/
def ProximityProfile_getParameter (p : Profile) (param : Nat) :
    bStatus_t × Option Nat :=
  if param = PROXIMITYPROFILE_DETECTION then (SUCCESS, some p.proximityProfile_Detection)
  else if param = PROXIMITYPROFILE_RANGE then (SUCCESS, some p.proximityProfile_Range)
  else if param = PROXIMITYPROFILE_SENSITIVITY then (SUCCESS, some p.proximityProfile_Sensitivity)
  else if param = PROXIMITYPROFILE_TIMEOUT then (SUCCESS, some p.proximityProfile_Timeout)
  else (INVALIDPARAMETER, none)

/-- Outcome of ProximityProfile_readAttrCB: the status, the value stored
through pLen (none when pLen is not written) and the bytes copied to pValue. -/
structure ReadResult where
  status : bStatus_t
  pLen : Option Nat
  pValue : List Nat
  deriving DecidableEq, Repr

/-- ProximityProfile_readAttrCB (proximity_service.c 300-347). -/
def ProximityProfile_readAttrCB (p : Profile) (pAttr : gattAttribute_t)
    (offset : Nat) : ReadResult :=
  if offset > 0 then ⟨ATT_ERR_ATTR_NOT_LONG, none, []⟩
  else if pAttr.type_len = ATT_BT_UUID_SIZE then
    let uuid := BUILD_UINT16 pAttr.uuid0 pAttr.uuid1
    if uuid = PROXIMITYPROFILE_DETECTION_UUID then
      ⟨SUCCESS, some 1, [p.proximityProfile_Detection % 256]⟩
    else if uuid = PROXIMITYPROFILE_SENSITIVITY_UUID then
      ⟨SUCCESS, some 1, [p.proximityProfile_Sensitivity % 256]⟩
    else if uuid = PROXIMITYPROFILE_RANGE_UUID then
      ⟨SUCCESS, some 2, [p.proximityProfile_Range % 256, p.proximityProfile_Range / 256 % 256]⟩
    else if uuid = PROXIMITYPROFILE_TIMEOUT_UUID then
      ⟨SUCCESS, some 2, [p.proximityProfile_Timeout % 256, p.proximityProfile_Timeout / 256 % 256]⟩
    else ⟨ATT_ERR_ATTR_NOT_FOUND, some 0, []⟩
  else ⟨ATT_ERR_INVALID_HANDLE, some 0, []⟩

/-- Outcome of ProximityProfile_writeAttrCB: the returned status, the statics
afterwards, and the argument of the call ProximityProfile_callback(notifyApp)
when that call is made. -/
structure WriteResult where
  status : bStatus_t
  profile : Profile
  callback : Option Nat
  deriving DecidableEq, Repr

/-- ProximityProfile_writeAttrCB (proximity_service.c 362-462). pValue is the
payload buffer, read at index 0 and 1; cccStatus is what the stack routine
GATTServApp_ProcessCCCWriteReq returns for a write to the client
characteristic configuration descriptor. -/
def ProximityProfile_writeAttrCB (p : Profile) (pAttr : gattAttribute_t)
    (pValue : List Nat) (len offset : Nat) (cccStatus : bStatus_t) : WriteResult :=
  if pAttr.type_len = ATT_BT_UUID_SIZE then
    let uuid := BUILD_UINT16 pAttr.uuid0 pAttr.uuid1
    let r : bStatus_t × Profile :=
      if uuid = PROXIMITYPROFILE_RANGE_UUID ∨ uuid = PROXIMITYPROFILE_SENSITIVITY_UUID
          ∨ uuid = PROXIMITYPROFILE_TIMEOUT_UUID then
        -- validate the value
        let status0 : bStatus_t :=
          if offset = 0 then
            if len ≠ 1 ∧ len ≠ 2 then ATT_ERR_INVALID_VALUE_SIZE else SUCCESS
          else ATT_ERR_ATTR_NOT_LONG
        -- reset of the previous value, or the 2-byte check for Sensitivity
        let r1 : bStatus_t × Profile :=
          if uuid ≠ PROXIMITYPROFILE_SENSITIVITY_UUID then
            (status0, pValue_storeByte (pValue_storeByte p uuid 0 0) uuid 1 0)
          else if len = 2 then (ATT_ERR_INVALID_VALUE_SIZE, p)
          else (status0, p)
        -- write the value
        if r1.1 = SUCCESS then
          if len = 1 then (r1.1, pValue_storeByte r1.2 uuid 0 (pValue.getD 0 0))
          else (r1.1, pValue_storeU16 r1.2 uuid
                  (BUILD_UINT16 (pValue.getD 0 0) (pValue.getD 1 0)))
        else r1
      else if uuid = GATT_CLIENT_CHAR_CFG_UUID then (cccStatus, p)
      else (ATT_ERR_ATTR_NOT_FOUND, p)
    let notifyApp : Nat :=
      if uuid = PROXIMITYPROFILE_RANGE_UUID then PROXIMITYPROFILE_RANGE
      else if uuid = PROXIMITYPROFILE_SENSITIVITY_UUID then PROXIMITYPROFILE_SENSITIVITY
      else if uuid = PROXIMITYPROFILE_TIMEOUT_UUID then PROXIMITYPROFILE_TIMEOUT
      else if uuid = GATT_CLIENT_CHAR_CFG_UUID then PROXIMITYPROFILE_DETECTION
      else 0xFF
    ⟨r.1, r.2,
      if notifyApp ≠ 0xFF ∧ p.proximityProfile_appCBs = true then some notifyApp else none⟩
  else
    ⟨ATT_ERR_INVALID_HANDLE, p, none⟩

/-- ProximityProfile_on_connect (proximity_service.c 469-472). -/
def ProximityProfile_on_connect (d : Driver) : Driver :=
  startSensor d

/-- ProximityProfile_on_disconnect (proximity_service.c 479-485); numActive is
what the stack routine linkDB_NumActive returns. -/
def ProximityProfile_on_disconnect (d : Driver) (numActive : Nat) : Driver :=
  if numActive > 0 then stopSensor d else d

/-- ProximityProfile_callback (proximity_service.c 494-506): the parameter id
queued for ProximityProfile_invokeFromFWContext, none when ICall_malloc fails
(mallocOk is false). -/
def ProximityProfile_callback (mallocOk : Bool) (paramID : Nat) : Option Nat :=
  if mallocOk then some (paramID % 256) else none

/-! ### app_proximity.c -/

/-- The application state: the profile statics, the driver, and the function
static last_detection of Proximity_on_proximity_evt. -/
structure App where
  profile : Profile
  driver : Driver
  last_detection : Nat
  deriving DecidableEq, Repr

/-- Proximity_changeCB (app_proximity.c 57-111). newValue starts at 0 and
receives what ProximityProfile_getParameter writes. -/
def Proximity_changeCB (s : App) (paramId : Nat) : App :=
  let newValue : Nat := (ProximityProfile_getParameter s.profile paramId).2.getD 0
  if paramId = PROXIMITYPROFILE_RANGE then
    if newValue ≥ MIN_RANGE_VALUE ∧ newValue ≤ MAX_RANGE_VALUE then
      { s with driver := startSensor (setRange (stopSensor s.driver) newValue) }
    else
      let charRange : Nat := getRange s.driver
      { s with profile :=
          (ProximityProfile_setParameter s.profile PROXIMITYPROFILE_RANGE 2 charRange).2 }
  else if paramId = PROXIMITYPROFILE_SENSITIVITY then
    if newValue ≥ MIN_SENSITIVITY_VALUE ∧ newValue ≤ MAX_SENSITIVITY_VALUE then
      { s with driver := startSensor (setSensitivity (stopSensor s.driver) newValue) }
    else
      let charSensitivity : Nat := getSensitivity s.driver
      { s with profile :=
          (ProximityProfile_setParameter s.profile PROXIMITYPROFILE_SENSITIVITY 1
            charSensitivity).2 }
  else if paramId = PROXIMITYPROFILE_TIMEOUT then
    { s with driver := setPresenceTimeout s.driver newValue }
  else s

/-- ProximityProfile_invokeFromFWContext (proximity_service.c 515-518) with the
callback table registered by Proximity_start, whose only entry is
Proximity_changeCB. -/
def ProximityProfile_invokeFromFWContext (s : App) (pData : Nat) : App :=
  Proximity_changeCB s pData

/-- Proximity_on_proximity_evt (app_proximity.c 207-218). -/
def Proximity_on_proximity_evt (s : App) (detection : Nat) : App :=
  if s.last_detection ≠ detection then
    { s with
        profile :=
          (ProximityProfile_setParameter s.profile PROXIMITYPROFILE_DETECTION 1 detection).2,
        last_detection := detection }
  else s

/-- Proximity_start (app_proximity.c 122-171). addService is the status of
ProximityProfile_addService, which only talks to the GATT server; detTask and
senTask tell whether the two xTaskCreate calls return pdPASS. -/
def Proximity_start (s : App) (addService : bStatus_t) (detTask senTask : Bool) :
    bStatus_t × App :=
  if addService ≠ SUCCESS then (addService, s)
  else
    let charProximity : Nat := 0
    let charRange : Nat := getRange s.driver
    let charSensitivity : Nat := getSensitivity s.driver
    let charTimeout : Nat := getTimeout s.driver
    let p1 := (ProximityProfile_setParameter s.profile PROXIMITYPROFILE_DETECTION 1
      charProximity).2
    let p2 := (ProximityProfile_setParameter p1 PROXIMITYPROFILE_RANGE 2 charRange).2
    let p3 := (ProximityProfile_setParameter p2 PROXIMITYPROFILE_SENSITIVITY 1
      charSensitivity).2
    let p4 := (ProximityProfile_setParameter p3 PROXIMITYPROFILE_TIMEOUT 2 charTimeout).2
    let r := ProximityProfile_registerAppCBs p4 true
    let status1 : bStatus_t := if detTask then r.1 else FAILURE
    let status2 : bStatus_t := if senTask then status1 else FAILURE
    (status2, { s with profile := r.2 })

/-! ### Harness: runs of the embedded functions -/

/-- The state at power-up: statics at their C initialisers, a driver holding
the defaults of proximity.h. -/
def App.boot : App :=
  { profile := Profile.init, driver := Driver.fresh, last_detection := 0 }

/-- The state after a successful Proximity_start from power-up: Range 150,
Sensitivity 3, Timeout 10000, Detection 0, change callback registered. -/
def App.started : App := (Proximity_start App.boot SUCCESS true true).2

/-- A complete peer write: ProximityProfile_writeAttrCB, then, when it calls
ProximityProfile_callback and the allocation succeeds, the queued
ProximityProfile_invokeFromFWContext. Returns the status sent to the peer and
the state afterwards. -/
def peerWrite (s : App) (mallocOk : Bool) (pAttr : gattAttribute_t)
    (pValue : List Nat) (len offset : Nat) (cccStatus : bStatus_t) : bStatus_t × App :=
  let w := ProximityProfile_writeAttrCB s.profile pAttr pValue len offset cccStatus
  let s1 : App := { s with profile := w.profile }
  match w.callback.bind (ProximityProfile_callback mallocOk) with
  | some pData => (w.status, ProximityProfile_invokeFromFWContext s1 pData)
  | none => (w.status, s1)

/-- The state at start-up as far as detection is concerned: the function
static last_detection holds 0; profile and driver are given. -/
def startup (p : Profile) (d : Driver) : App :=
  { profile := p, driver := d, last_detection := 0 }

/-- Feeds a sequence of raw detection bytes to Proximity_on_proximity_evt,
first element first. -/
def feed (s : App) (raw : List Nat) : App :=
  raw.foldl Proximity_on_proximity_evt s

/-- The values notified by the call number i (from 0) when the sequence raw is
fed from state s: the entries that call appends to the notification log. -/
def notifiedAt (s : App) (raw : List Nat) (i : Nat) : List Nat :=
  (feed s (raw.take (i + 1))).profile.notified.drop
    (feed s (raw.take i)).profile.notified.length

/-- The value a well-formed write payload carries: a 1-byte payload is an
8-bit value, a 2-byte payload a 16-bit little-endian value. -/
def wireValue (pValue : List Nat) : Nat :=
  match pValue with
  | [b] => b
  | [b0, b1] => b0 + 256 * b1
  | _ => 0

/-- A payload of len bytes: the buffer holds exactly len entries, each a byte. -/
def wellFormed (pValue : List Nat) (len : Nat) : Prop :=
  pValue.length = len ∧ ∀ b ∈ pValue, b < 256

instance (pValue : List Nat) (len : Nat) : Decidable (wellFormed pValue len) := by
  unfold wellFormed; infer_instance

/-- The connection-lifecycle state: the number of active links and the driver. -/
structure Links where
  numActive : Nat
  driver : Driver
  deriving DecidableEq, Repr

/-- A peer connects: the link count grows by one and the stack event handler
calls ProximityProfile_on_connect. -/
def connect (l : Links) : Links :=
  { numActive := l.numActive + 1, driver := ProximityProfile_on_connect l.driver }

/-- A peer disconnects: the link count drops by one and
ProximityProfile_on_disconnect runs with linkDB_NumActive reporting the
remaining count. -/
def disconnect (l : Links) : Links :=
  { numActive := l.numActive - 1,
    driver := ProximityProfile_on_disconnect l.driver (l.numActive - 1) }

/-- Number of startSensor calls in a call log. -/
def startCount (cs : List DriverCall) : Nat := cs.count DriverCall.startSensor

/-- Number of stopSensor calls in a call log. -/
def stopCount (cs : List DriverCall) : Nat := cs.count DriverCall.stopSensor

/-- A profile whose statics hold values of their C types: Detection and
Sensitivity are bytes, Range and Timeout are 16-bit values. -/
def wellTyped (p : Profile) : Prop :=
  p.proximityProfile_Detection < 256 ∧ p.proximityProfile_Range < 65536 ∧
  p.proximityProfile_Sensitivity < 256 ∧ p.proximityProfile_Timeout < 65536

instance (p : Profile) : Decidable (wellTyped p) := by
  unfold wellTyped; infer_instance

/-- One step of the write path. write is ProximityProfile_writeAttrCB alone,
its callback still pending; change is one run of Proximity_changeCB;
transaction is a complete peer write, the callback running right after the
write that dispatched it. -/
inductive Event where
  | write (pAttr : gattAttribute_t) (pValue : List Nat) (len offset : Nat)
      (cccStatus : bStatus_t)
  | change (paramId : Nat)
  | transaction (pAttr : gattAttribute_t) (pValue : List Nat) (len offset : Nat)
      (cccStatus : bStatus_t)
  deriving DecidableEq, Repr

/-- The state after one step of the write path. -/
def Event.run (s : App) : Event → App
  | Event.write pAttr pValue len offset cccStatus =>
      { s with profile :=
          (ProximityProfile_writeAttrCB s.profile pAttr pValue len offset cccStatus).profile }
  | Event.change paramId => Proximity_changeCB s paramId
  | Event.transaction pAttr pValue len offset cccStatus =>
      (peerWrite s true pAttr pValue len offset cccStatus).2

/-- The state after a sequence of steps of the write path, first step first. -/
def runEvents (s : App) (es : List Event) : App :=
  es.foldl Event.run s

/-- The stored Range lies in 20..200 and the stored Sensitivity in 1..6. -/
def inSemanticRange (p : Profile) : Prop :=
  MIN_RANGE_VALUE ≤ p.proximityProfile_Range ∧ p.proximityProfile_Range ≤ MAX_RANGE_VALUE ∧
  MIN_SENSITIVITY_VALUE ≤ p.proximityProfile_Sensitivity ∧
  p.proximityProfile_Sensitivity ≤ MAX_SENSITIVITY_VALUE

instance (p : Profile) : Decidable (inSemanticRange p) := by
  unfold inSemanticRange; infer_instance

/-- The stored Range and Sensitivity are in their semantic ranges and agree
with what the driver reports, and the change callback is registered. -/
def Consistent (s : App) : Prop :=
  inSemanticRange s.profile ∧
  s.profile.proximityProfile_Range = getRange s.driver ∧
  s.profile.proximityProfile_Sensitivity = getSensitivity s.driver ∧
  s.profile.proximityProfile_appCBs = true

instance (s : App) : Decidable (Consistent s) := by
  unfold Consistent; infer_instance

/-- The arguments of one peer write as the GATT server hands them to
ProximityProfile_writeAttrCB. -/
structure PeerWrite where
  pAttr : gattAttribute_t
  pValue : List Nat
  len : Nat
  offset : Nat
  cccStatus : bStatus_t
  deriving DecidableEq, Repr

/-- The state after a sequence of complete peer writes, first write first: each
ProximityProfile_writeAttrCB is followed at once by the callback it dispatches. -/
def runWrites (s : App) (ws : List PeerWrite) : App :=
  ws.foldl (fun st w => (peerWrite st true w.pAttr w.pValue w.len w.offset w.cccStatus).2) s

/-- True when pAttr is an attribute with a 16-bit UUID equal to uuid. -/
def hasUuid (pAttr : gattAttribute_t) (uuid : Nat) : Bool :=
  decide (pAttr.type_len = ATT_BT_UUID_SIZE ∧ BUILD_UINT16 pAttr.uuid0 pAttr.uuid1 = uuid)

/-- Whether a write to the characteristic with the given UUID and parameter id
awaits its callback after the step, pending telling whether one did before. A
bare write to that characteristic leaves its callback pending; a run of
Proximity_changeCB for that parameter, alone or as part of a complete peer
write to that characteristic, leaves none pending; every other step changes
nothing. -/
def Event.pendingAfter (uuid paramId : Nat) (pending : Bool) : Event → Bool
  | Event.write pAttr _ _ _ _ => if hasUuid pAttr uuid then true else pending
  | Event.change id => if id = paramId then false else pending
  | Event.transaction pAttr _ _ _ _ => if hasUuid pAttr uuid then false else pending

/-- Whether a write to Range awaits its Proximity_changeCB after the steps es,
none pending at the start. -/
def rangePending (es : List Event) : Bool :=
  es.foldl (Event.pendingAfter PROXIMITYPROFILE_RANGE_UUID PROXIMITYPROFILE_RANGE) false

/-- Whether a write to Sensitivity awaits its Proximity_changeCB after the
steps es, none pending at the start. -/
def sensitivityPending (es : List Event) : Bool :=
  es.foldl
    (Event.pendingAfter PROXIMITYPROFILE_SENSITIVITY_UUID PROXIMITYPROFILE_SENSITIVITY) false

/-- The driver holds a range in 20..200 and a sensitivity in 1..6, the change
callback is registered, the stored Range equals the driver range unless a
Range write awaits its callback (bR), and the stored Sensitivity equals the
driver sensitivity unless a Sensitivity write awaits its callback (bS). -/
def Tracked (s : App) (bR bS : Bool) : Prop :=
  (MIN_RANGE_VALUE ≤ s.driver.range ∧ s.driver.range ≤ MAX_RANGE_VALUE) ∧
  (MIN_SENSITIVITY_VALUE ≤ s.driver.sensitivity ∧
    s.driver.sensitivity ≤ MAX_SENSITIVITY_VALUE) ∧
  s.profile.proximityProfile_appCBs = true ∧
  (bR = false → s.profile.proximityProfile_Range = s.driver.range) ∧
  (bS = false → s.profile.proximityProfile_Sensitivity = s.driver.sensitivity)

/-! ### Helper lemmas -/

theorem evt_last_detection (s : App) (x : Nat) :
    (Proximity_on_proximity_evt s x).last_detection = x := by
  unfold Proximity_on_proximity_evt
  by_cases h : s.last_detection = x <;> simp [h]

theorem evt_notified (s : App) (x : Nat) :
    (Proximity_on_proximity_evt s x).profile.notified =
      if s.last_detection ≠ x then s.profile.notified ++ [x % 256]
      else s.profile.notified := by
  unfold Proximity_on_proximity_evt
  by_cases h : s.last_detection = x <;> simp [h, ProximityProfile_setParameter]

theorem evt_detection (s : App) (x : Nat) :
    (Proximity_on_proximity_evt s x).profile.proximityProfile_Detection =
      if s.last_detection ≠ x then x % 256
      else s.profile.proximityProfile_Detection := by
  unfold Proximity_on_proximity_evt
  by_cases h : s.last_detection = x <;> simp [h, ProximityProfile_setParameter]

theorem feed_snoc (s : App) (raw : List Nat) (x : Nat) :
    feed s (raw ++ [x]) = Proximity_on_proximity_evt (feed s raw) x := by
  simp [feed, List.foldl_append]

theorem feed_take_succ (s : App) (raw : List Nat) (i : Nat) (h : i < raw.length) :
    feed s (raw.take (i + 1)) =
      Proximity_on_proximity_evt (feed s (raw.take i)) (raw.getD i 0) := by
  have e : raw.take (i + 1) = raw.take i ++ [raw.getD i 0] := by
    rw [List.take_succ]
    simp [List.getD, List.getElem?_eq_getElem h]
  rw [e, feed_snoc]

theorem feed_last_detection (s : App) (raw : List Nat) (i : Nat) (h : i ≤ raw.length) :
    (feed s (raw.take i)).last_detection = (s.last_detection :: raw).getD i 0 := by
  induction i with
  | zero => simp [feed]
  | succ k _ =>
    have hk : k < raw.length := h
    rw [feed_take_succ s raw k hk, evt_last_detection]
    simp [List.getD, List.getElem?_eq_getElem hk]

theorem notifiedAt_eq (s : App) (raw : List Nat) (i : Nat) (hi : i < raw.length) :
    notifiedAt s raw i =
      if (s.last_detection :: raw).getD i 0 ≠ raw.getD i 0 then [raw.getD i 0 % 256]
      else [] := by
  unfold notifiedAt
  rw [feed_take_succ s raw i hi, evt_notified, feed_last_detection s raw i (Nat.le_of_lt hi)]
  by_cases h : (s.last_detection :: raw).getD i 0 = raw.getD i 0
  · rw [if_neg (not_not.mpr h), if_neg (not_not.mpr h)]
    exact List.drop_length _
  · rw [if_pos h, if_pos h]
    exact List.drop_left _ _

/-! ### Connection lifecycle -/

/-- C1: ProximityProfile_on_disconnect evaluated on the code. With no active
link remaining (linkDB_NumActive = 0) it makes no driver call at all, and with
n + 1 links remaining it makes exactly one stopSensor call: the opposite of
the documented behaviour (stop when no active connection is present). -/
theorem on_disconnect_stops_only_with_links_remaining (d : Driver) (n : Nat) :
    ProximityProfile_on_disconnect d 0 = d ∧
    stopCount (ProximityProfile_on_disconnect d 0).calls = stopCount d.calls ∧
    (ProximityProfile_on_disconnect d (n + 1)).calls = d.calls ++ [DriverCall.stopSensor] ∧
    stopCount (ProximityProfile_on_disconnect d (n + 1)).calls = stopCount d.calls + 1 := by
  simp [ProximityProfile_on_disconnect, stopSensor, stopCount]

/-- C2 (counterexample): two connects in a row from the idle state, with no
disconnect in between, record two startSensor calls, not one; the second
connect, made while one link is already active, calls startSensor again. -/
theorem on_connect_not_edge_triggered :
    (connect ⟨0, Driver.fresh⟩).numActive = 1 ∧
    (connect (connect ⟨0, Driver.fresh⟩)).driver.calls =
      (connect ⟨0, Driver.fresh⟩).driver.calls ++ [DriverCall.startSensor] ∧
    ¬ startCount (connect (connect ⟨0, Driver.fresh⟩)).driver.calls = 1 := by
  decide

/-- C2 (amended): ProximityProfile_on_connect is level-triggered. Every call
appends exactly one startSensor call to the driver log, whatever the driver
state and the number of links already active, so n connects in a row record
exactly n startSensor calls. -/
theorem on_connect_always_starts (l : Links) (n : Nat) :
    (ProximityProfile_on_connect l.driver).calls =
      l.driver.calls ++ [DriverCall.startSensor] ∧
    (connect l).driver.calls = l.driver.calls ++ [DriverCall.startSensor] ∧
    startCount (connect^[n] l).driver.calls = startCount l.driver.calls + n := by
  refine ⟨by simp [ProximityProfile_on_connect, startSensor],
          by simp [connect, ProximityProfile_on_connect, startSensor], ?_⟩
  induction n generalizing l with
  | zero => simp
  | succ k ih =>
    rw [Function.iterate_succ_apply, ih (connect l)]
    simp [connect, ProximityProfile_on_connect, startSensor, startCount]
    omega

/-! ### Detection debounce -/

/-- C3: fed from the start-up state (last published value 0) with any finite
sequence of raw detection bytes, Proximity_on_proximity_evt notifies at index
i exactly when the i-th byte differs from the byte before it (from 0 at index
0), and then notifies exactly the i-th byte; for the sequence 0,0,1,1,0 the
notifications are 1 at index 2 and 0 at index 4 and nothing else. -/
theorem detection_debounce (p : Profile) (d : Driver) (raw : List Nat) (i : Nat)
    (hi : i < raw.length) (hb : ∀ b ∈ raw, b < 256) :
    (raw.getD i 0 ≠ (0 :: raw).getD i 0 →
        notifiedAt (startup p d) raw i = [raw.getD i 0]) ∧
    (raw.getD i 0 = (0 :: raw).getD i 0 → notifiedAt (startup p d) raw i = []) ∧
    (List.range 5).map (notifiedAt (startup p d) [0, 0, 1, 1, 0]) =
      [[], [], [1], [], [0]] := by
  have hlt : raw.getD i 0 < 256 := by
    have hm : raw.getD i 0 ∈ raw := by
      simp [List.getD, List.getElem?_eq_getElem hi]
    exact hb _ hm
  have key := notifiedAt_eq (startup p d) raw i hi
  have h0 : (startup p d).last_detection = 0 := rfl
  rw [h0] at key
  refine ⟨?_, ?_, ?_⟩
  · intro hne
    rw [key, if_pos (fun e => hne e.symm), Nat.mod_eq_of_lt hlt]
  · intro he
    rw [key, if_neg (fun hne => hne he.symm)]
  · simp [List.range, List.range.loop, notifiedAt, feed, startup,
      Proximity_on_proximity_evt, ProximityProfile_setParameter]

/-- Witness for C3 on the sequence 0,0,1,1,0 at index 2. -/
theorem detection_debounce_witness :
    ((([0, 0, 1, 1, 0] : List Nat).getD 2 0 ≠ (0 :: [0, 0, 1, 1, 0]).getD 2 0 →
        notifiedAt (startup Profile.init Driver.fresh) [0, 0, 1, 1, 0] 2 = [1]) ∧
     (([0, 0, 1, 1, 0] : List Nat).getD 2 0 = (0 :: [0, 0, 1, 1, 0]).getD 2 0 →
        notifiedAt (startup Profile.init Driver.fresh) [0, 0, 1, 1, 0] 2 = []) ∧
     (List.range 5).map (notifiedAt (startup Profile.init Driver.fresh) [0, 0, 1, 1, 0]) =
       [[], [], [1], [], [0]]) ∧
    notifiedAt (startup Profile.init Driver.fresh) [0, 0, 1, 1, 0] 2 = [1] :=
  ⟨detection_debounce Profile.init Driver.fresh [0, 0, 1, 1, 0] 2 (by decide) (by decide),
   by decide⟩

/-! ### Peer writes -/

theorem wellFormed_one (pValue : List Nat) (h : wellFormed pValue 1) :
    ∃ b, b < 256 ∧ pValue = [b] := by
  obtain ⟨hl, hb⟩ := h
  match pValue, hl with
  | [b], _ => exact ⟨b, hb b (by simp), rfl⟩

theorem wellFormed_two (pValue : List Nat) (h : wellFormed pValue 2) :
    ∃ b0 b1, b0 < 256 ∧ b1 < 256 ∧ pValue = [b0, b1] := by
  obtain ⟨hl, hb⟩ := h
  match pValue, hl with
  | [b0, b1], _ => exact ⟨b0, b1, hb b0 (by simp), hb b1 (by simp), rfl⟩

theorem wireValue_lt (pValue : List Nat) (len : Nat) (hlen : len = 1 ∨ len = 2)
    (hw : wellFormed pValue len) : wireValue pValue < 65536 := by
  rcases hlen with h | h <;> subst h
  · obtain ⟨b, hb, rfl⟩ := wellFormed_one pValue hw
    simp [wireValue]; omega
  · obtain ⟨b0, b1, h0, h1, rfl⟩ := wellFormed_two pValue hw
    simp [wireValue]; omega

theorem writeAttrCB_range_ok (p : Profile) (pValue : List Nat) (len : Nat)
    (cccStatus : bStatus_t) (hlen : len = 1 ∨ len = 2) (hw : wellFormed pValue len) :
    ProximityProfile_writeAttrCB p rangeAttr pValue len 0 cccStatus =
      ⟨SUCCESS, { p with proximityProfile_Range := wireValue pValue },
        if p.proximityProfile_appCBs = true then some PROXIMITYPROFILE_RANGE else none⟩ := by
  rcases hlen with h | h <;> subst h
  · obtain ⟨b, hb, rfl⟩ := wellFormed_one pValue hw
    simp [ProximityProfile_writeAttrCB, rangeAttr, BUILD_UINT16, pValue_storeByte,
      setByte16, wireValue, Nat.mod_eq_of_lt hb]
  · obtain ⟨b0, b1, h0, h1, rfl⟩ := wellFormed_two pValue hw
    have e : (b0 + b1 * 256) % 65536 = b0 + 256 * b1 := by omega
    simp [ProximityProfile_writeAttrCB, rangeAttr, BUILD_UINT16, pValue_storeByte,
      pValue_storeU16, setByte16, wireValue, Nat.mod_eq_of_lt h0, Nat.mod_eq_of_lt h1, e]
    omega

theorem peerWrite_range_ok (s : App) (pValue : List Nat) (len : Nat)
    (cccStatus : bStatus_t) (hcb : s.profile.proximityProfile_appCBs = true)
    (hlen : len = 1 ∨ len = 2) (hw : wellFormed pValue len) :
    peerWrite s true rangeAttr pValue len 0 cccStatus =
      (SUCCESS, Proximity_changeCB
        { s with profile := { s.profile with proximityProfile_Range := wireValue pValue } }
        PROXIMITYPROFILE_RANGE) := by
  unfold peerWrite
  rw [writeAttrCB_range_ok s.profile pValue len cccStatus hlen hw]
  simp [hcb, ProximityProfile_callback, ProximityProfile_invokeFromFWContext]

/-- C4: a well-formed peer write (offset 0, 1 or 2 bytes) to Range whose value
lies outside 20..200, made while the stored Range equals the range the driver
reports, dispatches Proximity_changeCB for Range; once both have run,
ProximityProfile_getParameter(Range) yields the pre-write value,
ProximityProfile_readAttrCB on Range returns its two little-endian bytes, and
the driver log is unchanged (no stopSensor, setRange or startSensor call). -/
theorem range_write_out_of_range_restored (s : App) (pValue : List Nat) (len : Nat)
    (cccStatus : bStatus_t)
    (hcb : s.profile.proximityProfile_appCBs = true)
    (hlen : len = 1 ∨ len = 2) (hw : wellFormed pValue len)
    (hr : wireValue pValue < MIN_RANGE_VALUE ∨ MAX_RANGE_VALUE < wireValue pValue)
    (hsync : s.profile.proximityProfile_Range = getRange s.driver)
    (h16 : s.profile.proximityProfile_Range < 65536) :
    (ProximityProfile_writeAttrCB s.profile rangeAttr pValue len 0 cccStatus).callback =
      some PROXIMITYPROFILE_RANGE ∧
    ProximityProfile_getParameter
        (peerWrite s true rangeAttr pValue len 0 cccStatus).2.profile PROXIMITYPROFILE_RANGE =
      (SUCCESS, some s.profile.proximityProfile_Range) ∧
    ProximityProfile_readAttrCB
        (peerWrite s true rangeAttr pValue len 0 cccStatus).2.profile rangeAttr 0 =
      ⟨SUCCESS, some 2, [s.profile.proximityProfile_Range % 256,
                         s.profile.proximityProfile_Range / 256]⟩ ∧
    (peerWrite s true rangeAttr pValue len 0 cccStatus).2.driver.calls = s.driver.calls := by
  have hd : s.driver.range % 65536 = s.profile.proximityProfile_Range := by
    rw [hsync] at h16 ⊢
    exact Nat.mod_eq_of_lt h16
  have hhi : s.profile.proximityProfile_Range / 256 % 256 =
      s.profile.proximityProfile_Range / 256 := by omega
  have hnot : ¬ (wireValue pValue ≥ MIN_RANGE_VALUE ∧ wireValue pValue ≤ MAX_RANGE_VALUE) := by
    simp only [MIN_RANGE_VALUE, MAX_RANGE_VALUE] at hr ⊢
    omega
  rw [peerWrite_range_ok s pValue len cccStatus hcb hlen hw,
    writeAttrCB_range_ok s.profile pValue len cccStatus hlen hw]
  refine ⟨by simp [hcb], ?_, ?_, ?_⟩
  · simp [Proximity_changeCB, ProximityProfile_getParameter, hnot,
      ProximityProfile_setParameter, getRange, hd]
  · simp [Proximity_changeCB, ProximityProfile_getParameter, hnot,
      ProximityProfile_setParameter, getRange, hd, ProximityProfile_readAttrCB,
      rangeAttr, BUILD_UINT16, hhi]
  · simp [Proximity_changeCB, ProximityProfile_getParameter, hnot]

/-- Witness for C4: the peer writes Range = 250 to the started application. -/
theorem range_write_out_of_range_restored_witness :
    (ProximityProfile_writeAttrCB App.started.profile rangeAttr [250] 1 0 SUCCESS).callback =
      some PROXIMITYPROFILE_RANGE ∧
    ProximityProfile_getParameter
        (peerWrite App.started true rangeAttr [250] 1 0 SUCCESS).2.profile
        PROXIMITYPROFILE_RANGE =
      (SUCCESS, some App.started.profile.proximityProfile_Range) ∧
    ProximityProfile_readAttrCB
        (peerWrite App.started true rangeAttr [250] 1 0 SUCCESS).2.profile rangeAttr 0 =
      ⟨SUCCESS, some 2, [App.started.profile.proximityProfile_Range % 256,
                         App.started.profile.proximityProfile_Range / 256]⟩ ∧
    (peerWrite App.started true rangeAttr [250] 1 0 SUCCESS).2.driver.calls =
      App.started.driver.calls :=
  range_write_out_of_range_restored App.started [250] 1 SUCCESS (by decide)
    (Or.inl rfl) (by decide) (Or.inr (by decide)) (by decide) (by decide)

/-- C5: a well-formed peer write (offset 0, 1 or 2 bytes) to Range whose value
r lies in 20..200 returns SUCCESS and dispatches Proximity_changeCB for Range;
once both have run, ProximityProfile_getParameter(Range) yields r and the
driver calls added by the write are exactly stopSensor, setRange(r),
startSensor, in that order. -/
theorem range_write_in_range_applied (s : App) (pValue : List Nat) (len : Nat)
    (cccStatus : bStatus_t)
    (hcb : s.profile.proximityProfile_appCBs = true)
    (hlen : len = 1 ∨ len = 2) (hw : wellFormed pValue len)
    (hr : MIN_RANGE_VALUE ≤ wireValue pValue ∧ wireValue pValue ≤ MAX_RANGE_VALUE) :
    (ProximityProfile_writeAttrCB s.profile rangeAttr pValue len 0 cccStatus).callback =
      some PROXIMITYPROFILE_RANGE ∧
    (peerWrite s true rangeAttr pValue len 0 cccStatus).1 = SUCCESS ∧
    ProximityProfile_getParameter
        (peerWrite s true rangeAttr pValue len 0 cccStatus).2.profile PROXIMITYPROFILE_RANGE =
      (SUCCESS, some (wireValue pValue)) ∧
    (peerWrite s true rangeAttr pValue len 0 cccStatus).2.driver.calls =
      s.driver.calls ++ [DriverCall.stopSensor, DriverCall.setRange (wireValue pValue),
        DriverCall.startSensor] := by
  have hin : wireValue pValue ≥ MIN_RANGE_VALUE ∧ wireValue pValue ≤ MAX_RANGE_VALUE := hr
  have hm : wireValue pValue % 65536 = wireValue pValue := by
    have := hr.2
    simp only [MAX_RANGE_VALUE] at this
    omega
  rw [peerWrite_range_ok s pValue len cccStatus hcb hlen hw,
    writeAttrCB_range_ok s.profile pValue len cccStatus hlen hw]
  refine ⟨by simp [hcb], rfl, ?_, ?_⟩
  · simp [Proximity_changeCB, ProximityProfile_getParameter, hin]
  · simp [Proximity_changeCB, ProximityProfile_getParameter, hin, startSensor, setRange,
      stopSensor, hm]

/-- Witness for C5: the peer writes Range = 100 to the started application. -/
theorem range_write_in_range_applied_witness :
    (ProximityProfile_writeAttrCB App.started.profile rangeAttr [100] 1 0 SUCCESS).callback =
      some PROXIMITYPROFILE_RANGE ∧
    (peerWrite App.started true rangeAttr [100] 1 0 SUCCESS).1 = SUCCESS ∧
    ProximityProfile_getParameter
        (peerWrite App.started true rangeAttr [100] 1 0 SUCCESS).2.profile
        PROXIMITYPROFILE_RANGE =
      (SUCCESS, some (wireValue [100])) ∧
    (peerWrite App.started true rangeAttr [100] 1 0 SUCCESS).2.driver.calls =
      App.started.driver.calls ++ [DriverCall.stopSensor,
        DriverCall.setRange (wireValue [100]), DriverCall.startSensor] :=
  range_write_in_range_applied App.started [100] 1 SUCCESS (by decide)
    (Or.inl rfl) (by decide) (by decide)

theorem writeAttrCB_sensitivity_ok (p : Profile) (pValue : List Nat)
    (cccStatus : bStatus_t) (hw : wellFormed pValue 1) :
    ProximityProfile_writeAttrCB p sensitivityAttr pValue 1 0 cccStatus =
      ⟨SUCCESS, { p with proximityProfile_Sensitivity := wireValue pValue },
        if p.proximityProfile_appCBs = true then some PROXIMITYPROFILE_SENSITIVITY
        else none⟩ := by
  obtain ⟨b, hb, rfl⟩ := wellFormed_one pValue hw
  simp [ProximityProfile_writeAttrCB, sensitivityAttr, BUILD_UINT16, pValue_storeByte,
    wireValue, Nat.mod_eq_of_lt hb]

/-- C6 (counterexample): the well-formed 1-byte writes Range = 250 and
Sensitivity = 7, both outside the semantic range, are answered with SUCCESS by
ProximityProfile_writeAttrCB, not with an error status. -/
theorem out_of_range_write_returns_success :
    (wellFormed [250] 1 ∧ MAX_RANGE_VALUE < wireValue [250] ∧
      ¬ (ProximityProfile_writeAttrCB App.started.profile rangeAttr [250] 1 0
          SUCCESS).status ≠ SUCCESS) ∧
    (wellFormed [7] 1 ∧ MAX_SENSITIVITY_VALUE < wireValue [7] ∧
      ¬ (ProximityProfile_writeAttrCB App.started.profile sensitivityAttr [7] 1 0
          SUCCESS).status ≠ SUCCESS) := by
  decide

/-- C6 (amended): for every well-formed write at offset 0 (1 or 2 bytes for
Range, 1 byte for Sensitivity) whose value is outside the semantic range,
ProximityProfile_writeAttrCB returns SUCCESS and stores the written value; the
value is put back afterwards by Proximity_changeCB, which overwrites it with
the value the driver reports and makes no driver call. -/
theorem out_of_range_write_accepted_then_reverted (s : App) (cccStatus : bStatus_t) :
    (∀ pValue len, (len = 1 ∨ len = 2) → wellFormed pValue len →
      (wireValue pValue < MIN_RANGE_VALUE ∨ MAX_RANGE_VALUE < wireValue pValue) →
      (ProximityProfile_writeAttrCB s.profile rangeAttr pValue len 0 cccStatus).status
          = SUCCESS ∧
      (ProximityProfile_writeAttrCB s.profile rangeAttr pValue len 0
          cccStatus).profile.proximityProfile_Range = wireValue pValue ∧
      (Proximity_changeCB
          { s with profile :=
              (ProximityProfile_writeAttrCB s.profile rangeAttr pValue len 0
                cccStatus).profile }
          PROXIMITYPROFILE_RANGE).profile.proximityProfile_Range
          = getRange s.driver % 65536 ∧
      (Proximity_changeCB
          { s with profile :=
              (ProximityProfile_writeAttrCB s.profile rangeAttr pValue len 0
                cccStatus).profile }
          PROXIMITYPROFILE_RANGE).driver = s.driver) ∧
    (∀ pValue, wellFormed pValue 1 →
      (wireValue pValue < MIN_SENSITIVITY_VALUE ∨
        MAX_SENSITIVITY_VALUE < wireValue pValue) →
      (ProximityProfile_writeAttrCB s.profile sensitivityAttr pValue 1 0 cccStatus).status
          = SUCCESS ∧
      (ProximityProfile_writeAttrCB s.profile sensitivityAttr pValue 1 0
          cccStatus).profile.proximityProfile_Sensitivity = wireValue pValue ∧
      (Proximity_changeCB
          { s with profile :=
              (ProximityProfile_writeAttrCB s.profile sensitivityAttr pValue 1 0
                cccStatus).profile }
          PROXIMITYPROFILE_SENSITIVITY).profile.proximityProfile_Sensitivity
          = getSensitivity s.driver % 256 ∧
      (Proximity_changeCB
          { s with profile :=
              (ProximityProfile_writeAttrCB s.profile sensitivityAttr pValue 1 0
                cccStatus).profile }
          PROXIMITYPROFILE_SENSITIVITY).driver = s.driver) := by
  constructor
  · intro pValue len hlen hw hr
    have hnot : ¬ (wireValue pValue ≥ MIN_RANGE_VALUE ∧
        wireValue pValue ≤ MAX_RANGE_VALUE) := by
      simp only [MIN_RANGE_VALUE, MAX_RANGE_VALUE] at hr ⊢
      omega
    rw [writeAttrCB_range_ok s.profile pValue len cccStatus hlen hw]
    simp [Proximity_changeCB, ProximityProfile_getParameter, hnot,
      ProximityProfile_setParameter]
  · intro pValue hw hr
    have hnot : ¬ (wireValue pValue ≥ MIN_SENSITIVITY_VALUE ∧
        wireValue pValue ≤ MAX_SENSITIVITY_VALUE) := by
      simp only [MIN_SENSITIVITY_VALUE, MAX_SENSITIVITY_VALUE] at hr ⊢
      omega
    rw [writeAttrCB_sensitivity_ok s.profile pValue cccStatus hw]
    simp [Proximity_changeCB, ProximityProfile_getParameter, hnot,
      ProximityProfile_setParameter]

/-- Witness for C6 (amended): Range = 250 and Sensitivity = 7 written to the
started application. -/
theorem out_of_range_write_accepted_then_reverted_witness :
    ((ProximityProfile_writeAttrCB App.started.profile rangeAttr [250] 1 0 SUCCESS).status
        = SUCCESS ∧
      (ProximityProfile_writeAttrCB App.started.profile rangeAttr [250] 1 0
        SUCCESS).profile.proximityProfile_Range = wireValue [250] ∧
      (Proximity_changeCB
          { App.started with profile :=
              (ProximityProfile_writeAttrCB App.started.profile rangeAttr [250] 1 0
                SUCCESS).profile }
          PROXIMITYPROFILE_RANGE).profile.proximityProfile_Range
          = getRange App.started.driver % 65536 ∧
      (Proximity_changeCB
          { App.started with profile :=
              (ProximityProfile_writeAttrCB App.started.profile rangeAttr [250] 1 0
                SUCCESS).profile }
          PROXIMITYPROFILE_RANGE).driver = App.started.driver) ∧
    ((ProximityProfile_writeAttrCB App.started.profile sensitivityAttr [7] 1 0
        SUCCESS).status = SUCCESS ∧
      (ProximityProfile_writeAttrCB App.started.profile sensitivityAttr [7] 1 0
        SUCCESS).profile.proximityProfile_Sensitivity = wireValue [7] ∧
      (Proximity_changeCB
          { App.started with profile :=
              (ProximityProfile_writeAttrCB App.started.profile sensitivityAttr [7] 1 0
                SUCCESS).profile }
          PROXIMITYPROFILE_SENSITIVITY).profile.proximityProfile_Sensitivity
          = getSensitivity App.started.driver % 256 ∧
      (Proximity_changeCB
          { App.started with profile :=
              (ProximityProfile_writeAttrCB App.started.profile sensitivityAttr [7] 1 0
                SUCCESS).profile }
          PROXIMITYPROFILE_SENSITIVITY).driver = App.started.driver) :=
  ⟨(out_of_range_write_accepted_then_reverted App.started SUCCESS).1 [250] 1 (Or.inl rfl)
      (by decide) (Or.inr (by decide)),
   (out_of_range_write_accepted_then_reverted App.started SUCCESS).2 [7]
      (by decide) (Or.inr (by decide))⟩

/-- C7: ProximityProfile_writeAttrCB evaluated on two writes it rejects on
wire-level grounds. A 1-byte write to Range at offset 1 returns
ATT_ERR_ATTR_NOT_LONG and a 3-byte write to Timeout at offset 0 returns
ATT_ERR_INVALID_VALUE_SIZE, yet the stored Range (150) and the stored Timeout
(10000) are both 0 when the call returns. -/
theorem rejected_write_zeroes_stored_value :
    (App.started.profile.proximityProfile_Range = 150 ∧
      (ProximityProfile_writeAttrCB App.started.profile rangeAttr [100] 1 1
        SUCCESS).status = ATT_ERR_ATTR_NOT_LONG ∧
      (ProximityProfile_writeAttrCB App.started.profile rangeAttr [100] 1 1
        SUCCESS).profile.proximityProfile_Range = 0) ∧
    (App.started.profile.proximityProfile_Timeout = 10000 ∧
      (ProximityProfile_writeAttrCB App.started.profile timeoutAttr [1, 2, 3] 3 0
        SUCCESS).status = ATT_ERR_INVALID_VALUE_SIZE ∧
      (ProximityProfile_writeAttrCB App.started.profile timeoutAttr [1, 2, 3] 3 0
        SUCCESS).profile.proximityProfile_Timeout = 0) := by
  decide

/-- C8: a write of 2 bytes to the Sensitivity characteristic, whatever the
payload and the offset, returns ATT_ERR_INVALID_VALUE_SIZE (a non-success
status) and leaves the statics, the stored Sensitivity among them, unchanged. -/
theorem sensitivity_two_byte_write_rejected (p : Profile) (pValue : List Nat)
    (offset : Nat) (cccStatus : bStatus_t) :
    (ProximityProfile_writeAttrCB p sensitivityAttr pValue 2 offset cccStatus).status
      ≠ SUCCESS ∧
    (ProximityProfile_writeAttrCB p sensitivityAttr pValue 2 offset cccStatus).status
      = ATT_ERR_INVALID_VALUE_SIZE ∧
    (ProximityProfile_writeAttrCB p sensitivityAttr pValue 2 offset
      cccStatus).profile.proximityProfile_Sensitivity = p.proximityProfile_Sensitivity ∧
    (ProximityProfile_writeAttrCB p sensitivityAttr pValue 2 offset cccStatus).profile = p := by
  simp [ProximityProfile_writeAttrCB, sensitivityAttr, BUILD_UINT16]

/-- C9: whatever 16-bit value Range or Timeout held before, a 1-byte write of
the byte b at offset 0 returns SUCCESS, stores exactly b, and the following
ProximityProfile_readAttrCB at offset 0 returns length 2 and the bytes b, 0:
no stale high byte. -/
theorem one_byte_write_leaves_no_stale_high_byte (p : Profile) (b : Nat)
    (cccStatus : bStatus_t) (hb : b < 256) :
    ((ProximityProfile_writeAttrCB p rangeAttr [b] 1 0 cccStatus).status = SUCCESS ∧
      (ProximityProfile_writeAttrCB p rangeAttr [b] 1 0
        cccStatus).profile.proximityProfile_Range = b ∧
      ProximityProfile_readAttrCB
        (ProximityProfile_writeAttrCB p rangeAttr [b] 1 0 cccStatus).profile rangeAttr 0
        = ⟨SUCCESS, some 2, [b, 0]⟩) ∧
    ((ProximityProfile_writeAttrCB p timeoutAttr [b] 1 0 cccStatus).status = SUCCESS ∧
      (ProximityProfile_writeAttrCB p timeoutAttr [b] 1 0
        cccStatus).profile.proximityProfile_Timeout = b ∧
      ProximityProfile_readAttrCB
        (ProximityProfile_writeAttrCB p timeoutAttr [b] 1 0 cccStatus).profile timeoutAttr 0
        = ⟨SUCCESS, some 2, [b, 0]⟩) := by
  have h1 : b / 256 = 0 := Nat.div_eq_of_lt hb
  constructor <;>
  simp [ProximityProfile_writeAttrCB, ProximityProfile_readAttrCB, rangeAttr, timeoutAttr,
    BUILD_UINT16, pValue_storeByte, setByte16, Nat.mod_eq_of_lt hb, h1]

/-- Witness for C9: Range and Timeout hold 0x1234 (high byte 0x12) and the
byte 5 is written. -/
theorem one_byte_write_leaves_no_stale_high_byte_witness :
    ProximityProfile_readAttrCB
        { App.started.profile with
            proximityProfile_Range := 0x1234, proximityProfile_Timeout := 0x1234 }
        rangeAttr 0 = ⟨SUCCESS, some 2, [0x34, 0x12]⟩ ∧
    ProximityProfile_readAttrCB
        (ProximityProfile_writeAttrCB
          { App.started.profile with
              proximityProfile_Range := 0x1234, proximityProfile_Timeout := 0x1234 }
          rangeAttr [5] 1 0 SUCCESS).profile rangeAttr 0
        = ⟨SUCCESS, some 2, [5, 0]⟩ :=
  ⟨by decide,
   (one_byte_write_leaves_no_stale_high_byte
      { App.started.profile with
          proximityProfile_Range := 0x1234, proximityProfile_Timeout := 0x1234 }
      5 SUCCESS (by decide)).1.2.2⟩

/-- C10 (counterexample): a 2-byte write to Sensitivity at offset 1 returns
ATT_ERR_INVALID_VALUE_SIZE, not ATT_ERR_ATTR_NOT_LONG. -/
theorem nonzero_offset_not_always_not_long :
    (ProximityProfile_writeAttrCB App.started.profile sensitivityAttr [1, 2] 2 1
      SUCCESS).status = ATT_ERR_INVALID_VALUE_SIZE ∧
    ¬ (ProximityProfile_writeAttrCB App.started.profile sensitivityAttr [1, 2] 2 1
      SUCCESS).status = ATT_ERR_ATTR_NOT_LONG := by
  decide

/-- C10 (amended): for every write with a non-zero offset, whatever the payload
and its length, ProximityProfile_writeAttrCB returns ATT_ERR_ATTR_NOT_LONG on
Range and on Timeout, and on Sensitivity when the length is not 2; a 2-byte
write to Sensitivity at a non-zero offset returns ATT_ERR_INVALID_VALUE_SIZE,
because the 2-byte check for Sensitivity runs after the offset check. -/
theorem nonzero_offset_status (p : Profile) (pValue : List Nat) (len offset : Nat)
    (cccStatus : bStatus_t) (ho : offset ≠ 0) :
    (ProximityProfile_writeAttrCB p rangeAttr pValue len offset cccStatus).status
      = ATT_ERR_ATTR_NOT_LONG ∧
    (ProximityProfile_writeAttrCB p timeoutAttr pValue len offset cccStatus).status
      = ATT_ERR_ATTR_NOT_LONG ∧
    (len ≠ 2 →
      (ProximityProfile_writeAttrCB p sensitivityAttr pValue len offset cccStatus).status
        = ATT_ERR_ATTR_NOT_LONG) ∧
    (len = 2 →
      (ProximityProfile_writeAttrCB p sensitivityAttr pValue len offset cccStatus).status
        = ATT_ERR_INVALID_VALUE_SIZE) := by
  refine ⟨?_, ?_, ?_, ?_⟩
  · simp [ProximityProfile_writeAttrCB, rangeAttr, BUILD_UINT16, ho]
  · simp [ProximityProfile_writeAttrCB, timeoutAttr, BUILD_UINT16, ho]
  · intro hl
    simp [ProximityProfile_writeAttrCB, sensitivityAttr, BUILD_UINT16, ho, hl]
  · intro hl
    simp [ProximityProfile_writeAttrCB, sensitivityAttr, BUILD_UINT16, hl]

/-- Witness for C10 (amended): writes at offset 1 to the started application. -/
theorem nonzero_offset_status_witness :
    (ProximityProfile_writeAttrCB App.started.profile rangeAttr [1, 2] 2 1 SUCCESS).status
      = ATT_ERR_ATTR_NOT_LONG ∧
    (ProximityProfile_writeAttrCB App.started.profile timeoutAttr [1, 2] 2 1 SUCCESS).status
      = ATT_ERR_ATTR_NOT_LONG ∧
    (2 ≠ 2 →
      (ProximityProfile_writeAttrCB App.started.profile sensitivityAttr [1, 2] 2 1
        SUCCESS).status = ATT_ERR_ATTR_NOT_LONG) ∧
    (2 = 2 →
      (ProximityProfile_writeAttrCB App.started.profile sensitivityAttr [1, 2] 2 1
        SUCCESS).status = ATT_ERR_INVALID_VALUE_SIZE) :=
  nonzero_offset_status App.started.profile [1, 2] 2 1 SUCCESS (by decide)

/-! ### Wire-level checks and round trips -/

/-- C11: a write at offset 0 to Range, Sensitivity or Timeout whose length is
neither 1 nor 2 (length 0 included) returns ATT_ERR_INVALID_VALUE_SIZE,
whatever the payload. -/
theorem bad_length_write_status (p : Profile) (pValue : List Nat) (len : Nat)
    (cccStatus : bStatus_t) (hl : len ≠ 1 ∧ len ≠ 2) :
    (ProximityProfile_writeAttrCB p rangeAttr pValue len 0 cccStatus).status
      = ATT_ERR_INVALID_VALUE_SIZE ∧
    (ProximityProfile_writeAttrCB p sensitivityAttr pValue len 0 cccStatus).status
      = ATT_ERR_INVALID_VALUE_SIZE ∧
    (ProximityProfile_writeAttrCB p timeoutAttr pValue len 0 cccStatus).status
      = ATT_ERR_INVALID_VALUE_SIZE := by
  obtain ⟨h1, h2⟩ := hl
  refine ⟨?_, ?_, ?_⟩
  · simp [ProximityProfile_writeAttrCB, rangeAttr, BUILD_UINT16, h1, h2]
  · simp [ProximityProfile_writeAttrCB, sensitivityAttr, BUILD_UINT16, h1, h2]
  · simp [ProximityProfile_writeAttrCB, timeoutAttr, BUILD_UINT16, h1, h2]

/-- Witness for C11: an empty write (length 0) and a 3-byte write. -/
theorem bad_length_write_status_witness :
    ((ProximityProfile_writeAttrCB App.started.profile rangeAttr [] 0 0 SUCCESS).status
      = ATT_ERR_INVALID_VALUE_SIZE ∧
    (ProximityProfile_writeAttrCB App.started.profile sensitivityAttr [] 0 0 SUCCESS).status
      = ATT_ERR_INVALID_VALUE_SIZE ∧
    (ProximityProfile_writeAttrCB App.started.profile timeoutAttr [] 0 0 SUCCESS).status
      = ATT_ERR_INVALID_VALUE_SIZE) ∧
    (ProximityProfile_writeAttrCB App.started.profile rangeAttr [1, 2, 3] 3 0 SUCCESS).status
      = ATT_ERR_INVALID_VALUE_SIZE :=
  ⟨bad_length_write_status App.started.profile [] 0 SUCCESS (by decide), by decide⟩

/-- C12: a 2-byte payload b0, b1 written at offset 0 to Range or Timeout
returns SUCCESS, the stored 16-bit value is b0 + 256 * b1, and the following
ProximityProfile_readAttrCB at offset 0 returns length 2 and the bytes b0, b1;
a 1-byte payload b written at offset 0 to Sensitivity returns SUCCESS, the
stored value is b, and the following read returns length 1 and the byte b. -/
theorem write_read_round_trip (p : Profile) (b0 b1 b : Nat) (cccStatus : bStatus_t)
    (h0 : b0 < 256) (h1 : b1 < 256) (hb : b < 256) :
    ((ProximityProfile_writeAttrCB p rangeAttr [b0, b1] 2 0 cccStatus).status = SUCCESS ∧
      (ProximityProfile_writeAttrCB p rangeAttr [b0, b1] 2 0
        cccStatus).profile.proximityProfile_Range = b0 + 256 * b1 ∧
      ProximityProfile_readAttrCB
        (ProximityProfile_writeAttrCB p rangeAttr [b0, b1] 2 0 cccStatus).profile rangeAttr 0
        = ⟨SUCCESS, some 2, [b0, b1]⟩) ∧
    ((ProximityProfile_writeAttrCB p timeoutAttr [b0, b1] 2 0 cccStatus).status = SUCCESS ∧
      (ProximityProfile_writeAttrCB p timeoutAttr [b0, b1] 2 0
        cccStatus).profile.proximityProfile_Timeout = b0 + 256 * b1 ∧
      ProximityProfile_readAttrCB
        (ProximityProfile_writeAttrCB p timeoutAttr [b0, b1] 2 0 cccStatus).profile
        timeoutAttr 0 = ⟨SUCCESS, some 2, [b0, b1]⟩) ∧
    ((ProximityProfile_writeAttrCB p sensitivityAttr [b] 1 0 cccStatus).status = SUCCESS ∧
      (ProximityProfile_writeAttrCB p sensitivityAttr [b] 1 0
        cccStatus).profile.proximityProfile_Sensitivity = b ∧
      ProximityProfile_readAttrCB
        (ProximityProfile_writeAttrCB p sensitivityAttr [b] 1 0 cccStatus).profile
        sensitivityAttr 0 = ⟨SUCCESS, some 1, [b]⟩) := by
  have e : (b0 + b1 * 256) % 65536 = b0 + b1 * 256 := by omega
  have e0 : (b0 + b1 * 256) % 256 = b0 := by omega
  have e1 : (b0 + b1 * 256) / 256 % 256 = b1 := by omega
  have e2 : b0 + 256 * b1 = b0 + b1 * 256 := by omega
  refine ⟨?_, ?_, ?_⟩
  · simp [ProximityProfile_writeAttrCB, ProximityProfile_readAttrCB, rangeAttr,
      BUILD_UINT16, pValue_storeByte, pValue_storeU16, setByte16,
      Nat.mod_eq_of_lt h0, Nat.mod_eq_of_lt h1, e, e0, e1, e2]
  · simp [ProximityProfile_writeAttrCB, ProximityProfile_readAttrCB, timeoutAttr,
      BUILD_UINT16, pValue_storeByte, pValue_storeU16, setByte16,
      Nat.mod_eq_of_lt h0, Nat.mod_eq_of_lt h1, e, e0, e1, e2]
  · simp [ProximityProfile_writeAttrCB, ProximityProfile_readAttrCB, sensitivityAttr,
      BUILD_UINT16, pValue_storeByte, Nat.mod_eq_of_lt hb]

/-- Witness for C12: the payload 0x34, 0x12 (the value 0x1234) and the byte 4. -/
theorem write_read_round_trip_witness :
    (ProximityProfile_writeAttrCB App.started.profile rangeAttr [0x34, 0x12] 2 0
        SUCCESS).profile.proximityProfile_Range = 0x1234 ∧
    ProximityProfile_readAttrCB
        (ProximityProfile_writeAttrCB App.started.profile rangeAttr [0x34, 0x12] 2 0
          SUCCESS).profile rangeAttr 0 = ⟨SUCCESS, some 2, [0x34, 0x12]⟩ ∧
    ProximityProfile_readAttrCB
        (ProximityProfile_writeAttrCB App.started.profile sensitivityAttr [4] 1 0
          SUCCESS).profile sensitivityAttr 0 = ⟨SUCCESS, some 1, [4]⟩ :=
  ⟨(write_read_round_trip App.started.profile 0x34 0x12 4 SUCCESS (by decide) (by decide)
      (by decide)).1.2.1,
   (write_read_round_trip App.started.profile 0x34 0x12 4 SUCCESS (by decide) (by decide)
      (by decide)).1.2.2,
   (write_read_round_trip App.started.profile 0x34 0x12 4 SUCCESS (by decide) (by decide)
      (by decide)).2.2.2.2⟩

/-! ### The parameter store -/

/-- C13 (counterexample): after setParameter(Sensitivity, 4) the call
setParameter(Sensitivity, 7) returns SUCCESS and getParameter(Sensitivity)
yields 7, not 4; setParameter(Range, 250) returns SUCCESS and stores 250. -/
theorem setParameter_accepts_out_of_range :
    ((ProximityProfile_setParameter
        (ProximityProfile_setParameter App.started.profile PROXIMITYPROFILE_SENSITIVITY 1 4).2
        PROXIMITYPROFILE_SENSITIVITY 1 7).1 = SUCCESS ∧
      ProximityProfile_getParameter
        (ProximityProfile_setParameter
          (ProximityProfile_setParameter App.started.profile PROXIMITYPROFILE_SENSITIVITY 1 4).2
          PROXIMITYPROFILE_SENSITIVITY 1 7).2 PROXIMITYPROFILE_SENSITIVITY
        = (SUCCESS, some 7)) ∧
    ((ProximityProfile_setParameter App.started.profile PROXIMITYPROFILE_RANGE 2 250).1
        = SUCCESS ∧
      ProximityProfile_getParameter
        (ProximityProfile_setParameter App.started.profile PROXIMITYPROFILE_RANGE 2 250).2
        PROXIMITYPROFILE_RANGE = (SUCCESS, some 250)) := by
  decide

/-- C13 (amended): ProximityProfile_setParameter does not enforce the semantic
range. On Range with length 2 and on Sensitivity with length 1 it returns
SUCCESS for every value and stores it (reduced to the width of the parameter),
so a following getParameter yields the new value, inside 20..200 or 1..6 or
not. -/
theorem setParameter_stores_any_value (p : Profile) (v : Nat) :
    ((ProximityProfile_setParameter p PROXIMITYPROFILE_RANGE 2 v).1 = SUCCESS ∧
      ProximityProfile_getParameter
        (ProximityProfile_setParameter p PROXIMITYPROFILE_RANGE 2 v).2
        PROXIMITYPROFILE_RANGE = (SUCCESS, some (v % 65536))) ∧
    ((ProximityProfile_setParameter p PROXIMITYPROFILE_SENSITIVITY 1 v).1 = SUCCESS ∧
      ProximityProfile_getParameter
        (ProximityProfile_setParameter p PROXIMITYPROFILE_SENSITIVITY 1 v).2
        PROXIMITYPROFILE_SENSITIVITY = (SUCCESS, some (v % 256))) := by
  simp [ProximityProfile_setParameter, ProximityProfile_getParameter]

/-! ### Sensitivity and Timeout through the peer write path -/

theorem peerWrite_sensitivity_ok (s : App) (pValue : List Nat)
    (cccStatus : bStatus_t) (hcb : s.profile.proximityProfile_appCBs = true)
    (hw : wellFormed pValue 1) :
    peerWrite s true sensitivityAttr pValue 1 0 cccStatus =
      (SUCCESS, Proximity_changeCB
        { s with profile :=
            { s.profile with proximityProfile_Sensitivity := wireValue pValue } }
        PROXIMITYPROFILE_SENSITIVITY) := by
  unfold peerWrite
  rw [writeAttrCB_sensitivity_ok s.profile pValue cccStatus hw]
  simp [hcb, ProximityProfile_callback, ProximityProfile_invokeFromFWContext]
  rfl

theorem writeAttrCB_timeout_ok (p : Profile) (pValue : List Nat) (len : Nat)
    (cccStatus : bStatus_t) (hlen : len = 1 ∨ len = 2) (hw : wellFormed pValue len) :
    ProximityProfile_writeAttrCB p timeoutAttr pValue len 0 cccStatus =
      ⟨SUCCESS, { p with proximityProfile_Timeout := wireValue pValue },
        if p.proximityProfile_appCBs = true then some PROXIMITYPROFILE_TIMEOUT else none⟩ := by
  rcases hlen with h | h <;> subst h
  · obtain ⟨b, hb, rfl⟩ := wellFormed_one pValue hw
    simp [ProximityProfile_writeAttrCB, timeoutAttr, BUILD_UINT16, pValue_storeByte,
      setByte16, wireValue, Nat.mod_eq_of_lt hb]
  · obtain ⟨b0, b1, h0, h1, rfl⟩ := wellFormed_two pValue hw
    have e : (b0 + b1 * 256) % 65536 = b0 + 256 * b1 := by omega
    simp [ProximityProfile_writeAttrCB, timeoutAttr, BUILD_UINT16, pValue_storeByte,
      pValue_storeU16, setByte16, wireValue, Nat.mod_eq_of_lt h0, Nat.mod_eq_of_lt h1, e]
    omega

theorem peerWrite_timeout_ok (s : App) (pValue : List Nat) (len : Nat)
    (cccStatus : bStatus_t) (hcb : s.profile.proximityProfile_appCBs = true)
    (hlen : len = 1 ∨ len = 2) (hw : wellFormed pValue len) :
    peerWrite s true timeoutAttr pValue len 0 cccStatus =
      (SUCCESS, Proximity_changeCB
        { s with profile := { s.profile with proximityProfile_Timeout := wireValue pValue } }
        PROXIMITYPROFILE_TIMEOUT) := by
  unfold peerWrite
  rw [writeAttrCB_timeout_ok s.profile pValue len cccStatus hlen hw]
  simp [hcb, ProximityProfile_callback, ProximityProfile_invokeFromFWContext]
  rfl

/-- C14: with the change callback registered, a peer write of a Sensitivity s
in 1..6 followed by its Proximity_changeCB, then a peer write of a byte t
outside 1..6 followed by its Proximity_changeCB, leaves
ProximityProfile_getParameter(Sensitivity) at s, and the driver calls added
over both writes are exactly stopSensor, setSensitivity(s), startSensor. -/
theorem sensitivity_write_then_rejected_write (st : App) (s t : Nat)
    (ccc1 ccc2 : bStatus_t)
    (hcb : st.profile.proximityProfile_appCBs = true)
    (hs : MIN_SENSITIVITY_VALUE ≤ s ∧ s ≤ MAX_SENSITIVITY_VALUE)
    (ht : t < 256)
    (hto : t < MIN_SENSITIVITY_VALUE ∨ MAX_SENSITIVITY_VALUE < t) :
    ProximityProfile_getParameter
        (peerWrite (peerWrite st true sensitivityAttr [s] 1 0 ccc1).2 true
          sensitivityAttr [t] 1 0 ccc2).2.profile PROXIMITYPROFILE_SENSITIVITY
      = (SUCCESS, some s) ∧
    (peerWrite (peerWrite st true sensitivityAttr [s] 1 0 ccc1).2 true
        sensitivityAttr [t] 1 0 ccc2).2.driver.calls
      = st.driver.calls ++ [DriverCall.stopSensor, DriverCall.setSensitivity s,
          DriverCall.startSensor] := by
  simp only [MIN_SENSITIVITY_VALUE, MAX_SENSITIVITY_VALUE] at hs hto
  have hs256 : s < 256 := by omega
  have hws : wellFormed [s] 1 := ⟨rfl, by simpa using hs256⟩
  have hwt : wellFormed [t] 1 := ⟨rfl, by simpa using ht⟩
  have hin : s ≥ MIN_SENSITIVITY_VALUE ∧ s ≤ MAX_SENSITIVITY_VALUE := hs
  have hout : ¬ (t ≥ MIN_SENSITIVITY_VALUE ∧ t ≤ MAX_SENSITIVITY_VALUE) := by
    simp only [MIN_SENSITIVITY_VALUE, MAX_SENSITIVITY_VALUE]
    omega
  have hmod : s % 256 = s := Nat.mod_eq_of_lt hs256
  rw [peerWrite_sensitivity_ok st [s] ccc1 hcb hws]
  have h1 : Proximity_changeCB
      { st with profile := { st.profile with proximityProfile_Sensitivity := wireValue [s] } }
      PROXIMITYPROFILE_SENSITIVITY =
      { st with
          profile := { st.profile with proximityProfile_Sensitivity := s },
          driver := startSensor (setSensitivity (stopSensor st.driver) s) } := by
    simp [Proximity_changeCB, ProximityProfile_getParameter, wireValue, hin]
  have hcb1 : ({ st with
      profile := { st.profile with proximityProfile_Sensitivity := s },
      driver := startSensor (setSensitivity (stopSensor st.driver) s) } :
        App).profile.proximityProfile_appCBs = true := hcb
  simp only [h1]
  rw [peerWrite_sensitivity_ok _ [t] ccc2 hcb1 hwt]
  constructor
  · simp [Proximity_changeCB, ProximityProfile_getParameter, wireValue, hout,
      ProximityProfile_setParameter, getSensitivity, startSensor, setSensitivity,
      stopSensor, hmod]
  · simp [Proximity_changeCB, ProximityProfile_getParameter, wireValue, hout,
      startSensor, setSensitivity, stopSensor, hmod]

/-- Witness for C14: Sensitivity 4 is written, then Sensitivity 7, to the
started application. -/
theorem sensitivity_write_then_rejected_write_witness :
    ProximityProfile_getParameter
        (peerWrite (peerWrite App.started true sensitivityAttr [4] 1 0 SUCCESS).2 true
          sensitivityAttr [7] 1 0 SUCCESS).2.profile PROXIMITYPROFILE_SENSITIVITY
      = (SUCCESS, some 4) ∧
    (peerWrite (peerWrite App.started true sensitivityAttr [4] 1 0 SUCCESS).2 true
        sensitivityAttr [7] 1 0 SUCCESS).2.driver.calls
      = App.started.driver.calls ++ [DriverCall.stopSensor, DriverCall.setSensitivity 4,
          DriverCall.startSensor] :=
  sensitivity_write_then_rejected_write App.started 4 7 SUCCESS SUCCESS (by decide)
    (by decide) (by decide) (Or.inr (by decide))

/-- C15: a well-formed 1- or 2-byte write at offset 0 to Timeout carrying the
value v (any 16-bit value) returns SUCCESS, stores v and dispatches
Proximity_changeCB for Timeout, which adds exactly one driver call,
setPresenceTimeout(v), and neither stopSensor nor startSensor; the stored
Timeout is still v afterwards. -/
theorem timeout_write_applied (s : App) (pValue : List Nat) (len : Nat)
    (cccStatus : bStatus_t)
    (hcb : s.profile.proximityProfile_appCBs = true)
    (hlen : len = 1 ∨ len = 2) (hw : wellFormed pValue len) :
    (ProximityProfile_writeAttrCB s.profile timeoutAttr pValue len 0 cccStatus).status
      = SUCCESS ∧
    (ProximityProfile_writeAttrCB s.profile timeoutAttr pValue len 0
      cccStatus).profile.proximityProfile_Timeout = wireValue pValue ∧
    (ProximityProfile_writeAttrCB s.profile timeoutAttr pValue len 0 cccStatus).callback
      = some PROXIMITYPROFILE_TIMEOUT ∧
    (peerWrite s true timeoutAttr pValue len 0 cccStatus).2.driver.calls
      = s.driver.calls ++ [DriverCall.setPresenceTimeout (wireValue pValue)] ∧
    (peerWrite s true timeoutAttr pValue len 0
      cccStatus).2.profile.proximityProfile_Timeout = wireValue pValue := by
  have hm : wireValue pValue % 65536 = wireValue pValue :=
    Nat.mod_eq_of_lt (wireValue_lt pValue len hlen hw)
  rw [peerWrite_timeout_ok s pValue len cccStatus hcb hlen hw,
    writeAttrCB_timeout_ok s.profile pValue len cccStatus hlen hw]
  refine ⟨rfl, rfl, by simp [hcb], ?_, ?_⟩
  · simp [Proximity_changeCB, ProximityProfile_getParameter, setPresenceTimeout, hm]
  · simp [Proximity_changeCB, ProximityProfile_getParameter]

/-- Witness for C15: the 2-byte payload 0x10, 0x27 (10000) and the value 0. -/
theorem timeout_write_applied_witness :
    ((ProximityProfile_writeAttrCB App.started.profile timeoutAttr [0x10, 0x27] 2 0
        SUCCESS).status = SUCCESS ∧
      (ProximityProfile_writeAttrCB App.started.profile timeoutAttr [0x10, 0x27] 2 0
        SUCCESS).profile.proximityProfile_Timeout = wireValue [0x10, 0x27] ∧
      (ProximityProfile_writeAttrCB App.started.profile timeoutAttr [0x10, 0x27] 2 0
        SUCCESS).callback = some PROXIMITYPROFILE_TIMEOUT ∧
      (peerWrite App.started true timeoutAttr [0x10, 0x27] 2 0 SUCCESS).2.driver.calls
        = App.started.driver.calls ++
            [DriverCall.setPresenceTimeout (wireValue [0x10, 0x27])] ∧
      (peerWrite App.started true timeoutAttr [0x10, 0x27] 2 0
        SUCCESS).2.profile.proximityProfile_Timeout = wireValue [0x10, 0x27]) ∧
    (peerWrite App.started true timeoutAttr [0] 1 0 SUCCESS).2.driver.calls
      = [DriverCall.setPresenceTimeout 0] :=
  ⟨timeout_write_applied App.started [0x10, 0x27] 2 SUCCESS (by decide) (Or.inr rfl)
      (by decide),
   by decide⟩

/-! ### Attribute reads -/

/-- C16: the status of ProximityProfile_readAttrCB is fixed by the offset and
the attribute type alone. It is ATT_ERR_ATTR_NOT_LONG exactly when the offset
is non-zero; ATT_ERR_INVALID_HANDLE exactly when the offset is 0 and the UUID
is not a 16-bit UUID; ATT_ERR_ATTR_NOT_FOUND exactly when the offset is 0, the
UUID is 16-bit and is none of Detection 0x2BAD, Range 0x2BB1, Sensitivity
0x2BB2, Timeout 0x2BB3; SUCCESS exactly in the remaining case; and with
ATT_ERR_ATTR_NOT_FOUND or ATT_ERR_INVALID_HANDLE the returned length is 0. -/
theorem readAttrCB_status (p : Profile) (pAttr : gattAttribute_t) (offset : Nat) :
    ((ProximityProfile_readAttrCB p pAttr offset).status = ATT_ERR_ATTR_NOT_LONG
      ↔ offset ≠ 0) ∧
    ((ProximityProfile_readAttrCB p pAttr offset).status = ATT_ERR_INVALID_HANDLE
      ↔ offset = 0 ∧ pAttr.type_len ≠ ATT_BT_UUID_SIZE) ∧
    ((ProximityProfile_readAttrCB p pAttr offset).status = ATT_ERR_ATTR_NOT_FOUND
      ↔ offset = 0 ∧ pAttr.type_len = ATT_BT_UUID_SIZE ∧
        BUILD_UINT16 pAttr.uuid0 pAttr.uuid1 ≠ 0x2BAD ∧
        BUILD_UINT16 pAttr.uuid0 pAttr.uuid1 ≠ 0x2BB1 ∧
        BUILD_UINT16 pAttr.uuid0 pAttr.uuid1 ≠ 0x2BB2 ∧
        BUILD_UINT16 pAttr.uuid0 pAttr.uuid1 ≠ 0x2BB3) ∧
    ((ProximityProfile_readAttrCB p pAttr offset).status = SUCCESS
      ↔ offset = 0 ∧ pAttr.type_len = ATT_BT_UUID_SIZE ∧
        (BUILD_UINT16 pAttr.uuid0 pAttr.uuid1 = 0x2BAD ∨
         BUILD_UINT16 pAttr.uuid0 pAttr.uuid1 = 0x2BB1 ∨
         BUILD_UINT16 pAttr.uuid0 pAttr.uuid1 = 0x2BB2 ∨
         BUILD_UINT16 pAttr.uuid0 pAttr.uuid1 = 0x2BB3)) ∧
    ((ProximityProfile_readAttrCB p pAttr offset).status = ATT_ERR_ATTR_NOT_FOUND ∨
      (ProximityProfile_readAttrCB p pAttr offset).status = ATT_ERR_INVALID_HANDLE →
      (ProximityProfile_readAttrCB p pAttr offset).pLen = some 0) := by
  unfold ProximityProfile_readAttrCB
  by_cases ho : offset = 0
  · subst ho
    by_cases hl : pAttr.type_len = ATT_BT_UUID_SIZE
    · by_cases hd : BUILD_UINT16 pAttr.uuid0 pAttr.uuid1 = 0x2BAD
      · simp [hl, hd]
      · by_cases hs : BUILD_UINT16 pAttr.uuid0 pAttr.uuid1 = 0x2BB2
        · simp [hl, hs]
        · by_cases hr : BUILD_UINT16 pAttr.uuid0 pAttr.uuid1 = 0x2BB1
          · simp [hl, hr]
          · by_cases ht : BUILD_UINT16 pAttr.uuid0 pAttr.uuid1 = 0x2BB3
            · simp [hl, ht]
            · simp [hl, hd, hs, hr, ht]
    · simp [hl]
  · have hpos : offset > 0 := Nat.pos_of_ne_zero ho
    simp [hpos, ho]

/-- C17: for a profile whose statics hold values of their C types, a read at
offset 0 of the Detection or the Sensitivity attribute returns SUCCESS, length
1 and the stored byte, and a read of the Range or the Timeout attribute
returns SUCCESS, length 2 and the two bytes of the stored value, low byte
first; in each case the bytes encode the value ProximityProfile_getParameter
yields for that parameter. The read returns no new statics: it writes only
through pValue and pLen. -/
theorem readAttrCB_returns_stored_value (p : Profile) (pAttr : gattAttribute_t)
    (hl : pAttr.type_len = ATT_BT_UUID_SIZE) (hp : wellTyped p) :
    (BUILD_UINT16 pAttr.uuid0 pAttr.uuid1 = PROXIMITYPROFILE_DETECTION_UUID →
      ProximityProfile_readAttrCB p pAttr 0
        = ⟨SUCCESS, some 1, [p.proximityProfile_Detection]⟩ ∧
      ProximityProfile_getParameter p PROXIMITYPROFILE_DETECTION
        = (SUCCESS, some (wireValue (ProximityProfile_readAttrCB p pAttr 0).pValue))) ∧
    (BUILD_UINT16 pAttr.uuid0 pAttr.uuid1 = PROXIMITYPROFILE_SENSITIVITY_UUID →
      ProximityProfile_readAttrCB p pAttr 0
        = ⟨SUCCESS, some 1, [p.proximityProfile_Sensitivity]⟩ ∧
      ProximityProfile_getParameter p PROXIMITYPROFILE_SENSITIVITY
        = (SUCCESS, some (wireValue (ProximityProfile_readAttrCB p pAttr 0).pValue))) ∧
    (BUILD_UINT16 pAttr.uuid0 pAttr.uuid1 = PROXIMITYPROFILE_RANGE_UUID →
      ProximityProfile_readAttrCB p pAttr 0
        = ⟨SUCCESS, some 2,
            [p.proximityProfile_Range % 256, p.proximityProfile_Range / 256]⟩ ∧
      ProximityProfile_getParameter p PROXIMITYPROFILE_RANGE
        = (SUCCESS, some (wireValue (ProximityProfile_readAttrCB p pAttr 0).pValue))) ∧
    (BUILD_UINT16 pAttr.uuid0 pAttr.uuid1 = PROXIMITYPROFILE_TIMEOUT_UUID →
      ProximityProfile_readAttrCB p pAttr 0
        = ⟨SUCCESS, some 2,
            [p.proximityProfile_Timeout % 256, p.proximityProfile_Timeout / 256]⟩ ∧
      ProximityProfile_getParameter p PROXIMITYPROFILE_TIMEOUT
        = (SUCCESS, some (wireValue (ProximityProfile_readAttrCB p pAttr 0).pValue))) := by
  obtain ⟨hd, hr, hs, ht⟩ := hp
  have hr1 : p.proximityProfile_Range / 256 % 256 = p.proximityProfile_Range / 256 := by
    omega
  have ht1 : p.proximityProfile_Timeout / 256 % 256 = p.proximityProfile_Timeout / 256 := by
    omega
  have hr2 : p.proximityProfile_Range =
      p.proximityProfile_Range % 256 + 256 * (p.proximityProfile_Range / 256) := by omega
  have ht2 : p.proximityProfile_Timeout =
      p.proximityProfile_Timeout % 256 + 256 * (p.proximityProfile_Timeout / 256) := by omega
  refine ⟨?_, ?_, ?_, ?_⟩
  · intro h
    simp [ProximityProfile_readAttrCB, ProximityProfile_getParameter, hl, h, wireValue,
      Nat.mod_eq_of_lt hd]
  · intro h
    simp [ProximityProfile_readAttrCB, ProximityProfile_getParameter, hl, h, wireValue,
      Nat.mod_eq_of_lt hs]
  · intro h
    simp only [ProximityProfile_readAttrCB, ProximityProfile_getParameter, hl, h, wireValue,
      hr1]
    simp
    exact hr2
  · intro h
    simp only [ProximityProfile_readAttrCB, ProximityProfile_getParameter, hl, h, wireValue,
      ht1]
    simp
    exact ht2

/-- Witness for C17: the Range attribute of a profile holding Range 0x1234. -/
theorem readAttrCB_returns_stored_value_witness :
    ProximityProfile_readAttrCB
        { App.started.profile with proximityProfile_Range := 0x1234 } rangeAttr 0
      = ⟨SUCCESS, some 2, [0x1234 % 256, 0x1234 / 256]⟩ ∧
    ProximityProfile_getParameter
        { App.started.profile with proximityProfile_Range := 0x1234 } PROXIMITYPROFILE_RANGE
      = (SUCCESS, some (wireValue (ProximityProfile_readAttrCB
          { App.started.profile with proximityProfile_Range := 0x1234 } rangeAttr 0).pValue)) :=
  (readAttrCB_returns_stored_value
    { App.started.profile with proximityProfile_Range := 0x1234 } rangeAttr rfl
    (by decide)).2.2.1 (by decide)

/-! ### Writes to attributes that are not writable -/

/-- C20: for every payload, length and offset, ProximityProfile_writeAttrCB on
a 16-bit UUID that is not Range, Sensitivity, Timeout or the client
characteristic configuration descriptor (the Detection UUID 0x2BAD among them)
returns ATT_ERR_ATTR_NOT_FOUND, and on a UUID that is not 16-bit returns
ATT_ERR_INVALID_HANDLE; in both cases the statics are unchanged and
ProximityProfile_callback is not called. -/
theorem write_to_unwritable_attribute (p : Profile) (pAttr : gattAttribute_t)
    (pValue : List Nat) (len offset : Nat) (cccStatus : bStatus_t) :
    (pAttr.type_len = ATT_BT_UUID_SIZE →
      BUILD_UINT16 pAttr.uuid0 pAttr.uuid1 ≠ PROXIMITYPROFILE_RANGE_UUID →
      BUILD_UINT16 pAttr.uuid0 pAttr.uuid1 ≠ PROXIMITYPROFILE_SENSITIVITY_UUID →
      BUILD_UINT16 pAttr.uuid0 pAttr.uuid1 ≠ PROXIMITYPROFILE_TIMEOUT_UUID →
      BUILD_UINT16 pAttr.uuid0 pAttr.uuid1 ≠ GATT_CLIENT_CHAR_CFG_UUID →
      ProximityProfile_writeAttrCB p pAttr pValue len offset cccStatus
        = ⟨ATT_ERR_ATTR_NOT_FOUND, p, none⟩) ∧
    (pAttr.type_len ≠ ATT_BT_UUID_SIZE →
      ProximityProfile_writeAttrCB p pAttr pValue len offset cccStatus
        = ⟨ATT_ERR_INVALID_HANDLE, p, none⟩) ∧
    ProximityProfile_writeAttrCB p detectionAttr pValue len offset cccStatus
      = ⟨ATT_ERR_ATTR_NOT_FOUND, p, none⟩ := by
  refine ⟨?_, ?_, ?_⟩
  · intro hl hr hs ht hc
    simp [ProximityProfile_writeAttrCB, hl, hr, hs, ht, hc]
  · intro hl
    simp [ProximityProfile_writeAttrCB, hl]
  · simp [ProximityProfile_writeAttrCB, detectionAttr, BUILD_UINT16]

/-- Witness for C20: a 1-byte write to the characteristic declaration (UUID
0x2803) and a write to an attribute with a 128-bit UUID. -/
theorem write_to_unwritable_attribute_witness :
    ProximityProfile_writeAttrCB App.started.profile ⟨2, 0x03, 0x28⟩ [1] 1 0 SUCCESS
      = ⟨ATT_ERR_ATTR_NOT_FOUND, App.started.profile, none⟩ ∧
    ProximityProfile_writeAttrCB App.started.profile ⟨16, 0xB1, 0x2B⟩ [1] 1 0 SUCCESS
      = ⟨ATT_ERR_INVALID_HANDLE, App.started.profile, none⟩ :=
  ⟨(write_to_unwritable_attribute App.started.profile ⟨2, 0x03, 0x28⟩ [1] 1 0 SUCCESS).1
      rfl (by decide) (by decide) (by decide) (by decide),
   (write_to_unwritable_attribute App.started.profile ⟨16, 0xB1, 0x2B⟩ [1] 1 0 SUCCESS).2.1
      (by decide)⟩

/-! ### Invariants of the write path -/

theorem writeAttrCB_range_frame (p : Profile) (pAttr : gattAttribute_t)
    (pValue : List Nat) (len offset : Nat) (cccStatus : bStatus_t)
    (hl : pAttr.type_len = ATT_BT_UUID_SIZE)
    (hu : BUILD_UINT16 pAttr.uuid0 pAttr.uuid1 = PROXIMITYPROFILE_RANGE_UUID) :
    (ProximityProfile_writeAttrCB p pAttr pValue len offset
      cccStatus).profile.proximityProfile_Sensitivity = p.proximityProfile_Sensitivity ∧
    (ProximityProfile_writeAttrCB p pAttr pValue len offset
      cccStatus).profile.proximityProfile_appCBs = p.proximityProfile_appCBs ∧
    (ProximityProfile_writeAttrCB p pAttr pValue len offset cccStatus).callback =
      (if p.proximityProfile_appCBs = true then some PROXIMITYPROFILE_RANGE else none) := by
  by_cases ho : offset = 0 <;> by_cases h1 : len = 1 <;> by_cases h2 : len = 2 <;>
    simp [ProximityProfile_writeAttrCB, hl, hu, ho, h1, h2, pValue_storeByte,
      pValue_storeU16]

theorem writeAttrCB_sensitivity_frame (p : Profile) (pAttr : gattAttribute_t)
    (pValue : List Nat) (len offset : Nat) (cccStatus : bStatus_t)
    (hl : pAttr.type_len = ATT_BT_UUID_SIZE)
    (hu : BUILD_UINT16 pAttr.uuid0 pAttr.uuid1 = PROXIMITYPROFILE_SENSITIVITY_UUID) :
    (ProximityProfile_writeAttrCB p pAttr pValue len offset
      cccStatus).profile.proximityProfile_Range = p.proximityProfile_Range ∧
    (ProximityProfile_writeAttrCB p pAttr pValue len offset
      cccStatus).profile.proximityProfile_appCBs = p.proximityProfile_appCBs ∧
    (ProximityProfile_writeAttrCB p pAttr pValue len offset cccStatus).callback =
      (if p.proximityProfile_appCBs = true then some PROXIMITYPROFILE_SENSITIVITY
       else none) := by
  by_cases ho : offset = 0 <;> by_cases h1 : len = 1 <;> by_cases h2 : len = 2 <;>
    simp [ProximityProfile_writeAttrCB, hl, hu, ho, h1, h2, pValue_storeByte,
      pValue_storeU16]

theorem writeAttrCB_other_frame (p : Profile) (pAttr : gattAttribute_t)
    (pValue : List Nat) (len offset : Nat) (cccStatus : bStatus_t)
    (h : ¬ (pAttr.type_len = ATT_BT_UUID_SIZE ∧
          (BUILD_UINT16 pAttr.uuid0 pAttr.uuid1 = PROXIMITYPROFILE_RANGE_UUID ∨
           BUILD_UINT16 pAttr.uuid0 pAttr.uuid1 = PROXIMITYPROFILE_SENSITIVITY_UUID))) :
    (ProximityProfile_writeAttrCB p pAttr pValue len offset
      cccStatus).profile.proximityProfile_Range = p.proximityProfile_Range ∧
    (ProximityProfile_writeAttrCB p pAttr pValue len offset
      cccStatus).profile.proximityProfile_Sensitivity = p.proximityProfile_Sensitivity ∧
    (ProximityProfile_writeAttrCB p pAttr pValue len offset
      cccStatus).profile.proximityProfile_appCBs = p.proximityProfile_appCBs ∧
    ((ProximityProfile_writeAttrCB p pAttr pValue len offset cccStatus).callback = none ∨
     (ProximityProfile_writeAttrCB p pAttr pValue len offset cccStatus).callback
        = some PROXIMITYPROFILE_DETECTION ∨
     (ProximityProfile_writeAttrCB p pAttr pValue len offset cccStatus).callback
        = some PROXIMITYPROFILE_TIMEOUT) := by
  by_cases hl : pAttr.type_len = ATT_BT_UUID_SIZE
  · have hr : BUILD_UINT16 pAttr.uuid0 pAttr.uuid1 ≠ PROXIMITYPROFILE_RANGE_UUID :=
      fun e => h ⟨hl, Or.inl e⟩
    have hs : BUILD_UINT16 pAttr.uuid0 pAttr.uuid1 ≠ PROXIMITYPROFILE_SENSITIVITY_UUID :=
      fun e => h ⟨hl, Or.inr e⟩
    by_cases ht : BUILD_UINT16 pAttr.uuid0 pAttr.uuid1 = PROXIMITYPROFILE_TIMEOUT_UUID
    · by_cases hcb : p.proximityProfile_appCBs = true <;>
      by_cases ho : offset = 0 <;> by_cases h1 : len = 1 <;> by_cases h2 : len = 2 <;>
        simp [ProximityProfile_writeAttrCB, hl, ht, ho, h1, h2, hcb, pValue_storeByte,
          pValue_storeU16]
    · by_cases hc : BUILD_UINT16 pAttr.uuid0 pAttr.uuid1 = GATT_CLIENT_CHAR_CFG_UUID
      · by_cases hcb : p.proximityProfile_appCBs = true <;>
          simp [ProximityProfile_writeAttrCB, hl, hc, hcb]
      · simp [ProximityProfile_writeAttrCB, hl, hr, hs, ht, hc]
  · simp [ProximityProfile_writeAttrCB, hl]

theorem changeCB_range_consistent (s : App)
    (hd : MIN_RANGE_VALUE ≤ s.driver.range ∧ s.driver.range ≤ MAX_RANGE_VALUE)
    (hv : MIN_SENSITIVITY_VALUE ≤ s.profile.proximityProfile_Sensitivity ∧
      s.profile.proximityProfile_Sensitivity ≤ MAX_SENSITIVITY_VALUE)
    (hs : s.profile.proximityProfile_Sensitivity = getSensitivity s.driver)
    (hcb : s.profile.proximityProfile_appCBs = true) :
    Consistent (Proximity_changeCB s PROXIMITYPROFILE_RANGE) := by
  by_cases hin : s.profile.proximityProfile_Range ≥ MIN_RANGE_VALUE ∧
      s.profile.proximityProfile_Range ≤ MAX_RANGE_VALUE
  · have hm : s.profile.proximityProfile_Range % 65536 = s.profile.proximityProfile_Range := by
      have := hin.2
      simp only [MAX_RANGE_VALUE] at this
      omega
    have e : Proximity_changeCB s PROXIMITYPROFILE_RANGE =
        { s with driver :=
            startSensor (setRange (stopSensor s.driver) s.profile.proximityProfile_Range) } := by
      simp [Proximity_changeCB, ProximityProfile_getParameter, hin]
    rw [e]
    unfold Consistent inSemanticRange
    refine ⟨⟨hin.1, hin.2, hv.1, hv.2⟩, ?_, ?_, hcb⟩
    · simp [getRange, startSensor, setRange, stopSensor, hm]
    · simpa [getSensitivity, startSensor, setRange, stopSensor] using hs
  · have hm : s.driver.range % 65536 = s.driver.range := by
      have := hd.2
      simp only [MAX_RANGE_VALUE] at this
      omega
    have e : Proximity_changeCB s PROXIMITYPROFILE_RANGE =
        { s with profile := { s.profile with proximityProfile_Range := s.driver.range } } := by
      simp [Proximity_changeCB, ProximityProfile_getParameter, hin,
        ProximityProfile_setParameter, getRange, hm]
    rw [e]
    unfold Consistent inSemanticRange
    exact ⟨⟨hd.1, hd.2, hv.1, hv.2⟩, rfl, hs, hcb⟩

theorem changeCB_sensitivity_consistent (s : App)
    (hd : MIN_SENSITIVITY_VALUE ≤ s.driver.sensitivity ∧
      s.driver.sensitivity ≤ MAX_SENSITIVITY_VALUE)
    (hv : MIN_RANGE_VALUE ≤ s.profile.proximityProfile_Range ∧
      s.profile.proximityProfile_Range ≤ MAX_RANGE_VALUE)
    (hr : s.profile.proximityProfile_Range = getRange s.driver)
    (hcb : s.profile.proximityProfile_appCBs = true) :
    Consistent (Proximity_changeCB s PROXIMITYPROFILE_SENSITIVITY) := by
  by_cases hin : s.profile.proximityProfile_Sensitivity ≥ MIN_SENSITIVITY_VALUE ∧
      s.profile.proximityProfile_Sensitivity ≤ MAX_SENSITIVITY_VALUE
  · have hm : s.profile.proximityProfile_Sensitivity % 256 =
        s.profile.proximityProfile_Sensitivity := by
      have := hin.2
      simp only [MAX_SENSITIVITY_VALUE] at this
      omega
    have e : Proximity_changeCB s PROXIMITYPROFILE_SENSITIVITY =
        { s with driver :=
            startSensor (setSensitivity (stopSensor s.driver)
              s.profile.proximityProfile_Sensitivity) } := by
      simp [Proximity_changeCB, ProximityProfile_getParameter, hin]
    rw [e]
    unfold Consistent inSemanticRange
    refine ⟨⟨hv.1, hv.2, hin.1, hin.2⟩, ?_, ?_, hcb⟩
    · simpa [getRange, startSensor, setSensitivity, stopSensor] using hr
    · simp [getSensitivity, startSensor, setSensitivity, stopSensor, hm]
  · have hm : s.driver.sensitivity % 256 = s.driver.sensitivity := by
      have := hd.2
      simp only [MAX_SENSITIVITY_VALUE] at this
      omega
    have e : Proximity_changeCB s PROXIMITYPROFILE_SENSITIVITY =
        { s with profile :=
            { s.profile with proximityProfile_Sensitivity := s.driver.sensitivity } } := by
      simp [Proximity_changeCB, ProximityProfile_getParameter, hin,
        ProximityProfile_setParameter, getSensitivity, hm]
    rw [e]
    unfold Consistent inSemanticRange
    exact ⟨⟨hv.1, hv.2, hd.1, hd.2⟩, hr, rfl, hcb⟩

theorem changeCB_other_consistent (s : App) (paramId : Nat) (h : Consistent s)
    (h1 : paramId ≠ PROXIMITYPROFILE_RANGE) (h2 : paramId ≠ PROXIMITYPROFILE_SENSITIVITY) :
    Consistent (Proximity_changeCB s paramId) := by
  by_cases h3 : paramId = PROXIMITYPROFILE_TIMEOUT
  · subst h3
    simpa [Proximity_changeCB, Consistent, getRange, getSensitivity, setPresenceTimeout]
      using h
  · simpa [Proximity_changeCB, h1, h2, h3] using h

theorem changeCB_consistent (s : App) (paramId : Nat) (h : Consistent s) :
    Consistent (Proximity_changeCB s paramId) := by
  obtain ⟨⟨hr1, hr2, hs1, hs2⟩, hr, hs, hcb⟩ := h
  by_cases h1 : paramId = PROXIMITYPROFILE_RANGE
  · subst h1
    exact changeCB_range_consistent s (by rw [getRange] at hr; rw [← hr]; exact ⟨hr1, hr2⟩)
      ⟨hs1, hs2⟩ hs hcb
  · by_cases h2 : paramId = PROXIMITYPROFILE_SENSITIVITY
    · subst h2
      exact changeCB_sensitivity_consistent s
        (by rw [getSensitivity] at hs; rw [← hs]; exact ⟨hs1, hs2⟩) ⟨hr1, hr2⟩ hr hcb
    · exact changeCB_other_consistent s paramId ⟨⟨hr1, hr2, hs1, hs2⟩, hr, hs, hcb⟩ h1 h2

theorem peerWrite_consistent (s : App) (pAttr : gattAttribute_t) (pValue : List Nat)
    (len offset : Nat) (cccStatus : bStatus_t) (h : Consistent s) :
    Consistent (peerWrite s true pAttr pValue len offset cccStatus).2 := by
  obtain ⟨⟨hr1, hr2, hs1, hs2⟩, hr, hs, hcb⟩ := h
  unfold peerWrite
  by_cases hl : pAttr.type_len = ATT_BT_UUID_SIZE
  · by_cases hur : BUILD_UINT16 pAttr.uuid0 pAttr.uuid1 = PROXIMITYPROFILE_RANGE_UUID
    · obtain ⟨f1, f2, f3⟩ :=
        writeAttrCB_range_frame s.profile pAttr pValue len offset cccStatus hl hur
      simp only [f3, hcb, if_true, Option.some_bind, ProximityProfile_callback,
        ProximityProfile_invokeFromFWContext]
      apply changeCB_range_consistent
      · rw [getRange] at hr
        exact hr ▸ ⟨hr1, hr2⟩
      · exact f1 ▸ ⟨hs1, hs2⟩
      · exact f1.trans hs
      · exact f2.trans hcb
    · by_cases hus :
          BUILD_UINT16 pAttr.uuid0 pAttr.uuid1 = PROXIMITYPROFILE_SENSITIVITY_UUID
      · obtain ⟨f1, f2, f3⟩ :=
          writeAttrCB_sensitivity_frame s.profile pAttr pValue len offset cccStatus hl hus
        simp only [f3, hcb, if_true, Option.some_bind, ProximityProfile_callback,
          ProximityProfile_invokeFromFWContext]
        apply changeCB_sensitivity_consistent
        · rw [getSensitivity] at hs
          exact hs ▸ ⟨hs1, hs2⟩
        · exact f1 ▸ ⟨hr1, hr2⟩
        · exact f1.trans hr
        · exact f2.trans hcb
      · obtain ⟨f1, f2, f3, f4⟩ :=
          writeAttrCB_other_frame s.profile pAttr pValue len offset cccStatus
            (fun hh => hh.2.elim hur hus)
        have hc : Consistent
            { s with profile := (ProximityProfile_writeAttrCB s.profile pAttr pValue len
                offset cccStatus).profile } :=
          ⟨⟨f1 ▸ hr1, f1 ▸ hr2, f2 ▸ hs1, f2 ▸ hs2⟩, f1.trans hr, f2.trans hs, f3.trans hcb⟩
        rcases f4 with f4 | f4 | f4
        · simpa only [f4, Option.none_bind] using hc
        · simp only [f4, Option.some_bind, ProximityProfile_callback, if_true,
            ProximityProfile_invokeFromFWContext]
          exact changeCB_consistent _ _ hc
        · simp only [f4, Option.some_bind, ProximityProfile_callback, if_true,
            ProximityProfile_invokeFromFWContext]
          exact changeCB_consistent _ _ hc
  · obtain ⟨f1, f2, f3, f4⟩ :=
      writeAttrCB_other_frame s.profile pAttr pValue len offset cccStatus
        (fun hh => hl hh.1)
    have hc : Consistent
        { s with profile := (ProximityProfile_writeAttrCB s.profile pAttr pValue len
            offset cccStatus).profile } :=
      ⟨⟨f1 ▸ hr1, f1 ▸ hr2, f2 ▸ hs1, f2 ▸ hs2⟩, f1.trans hr, f2.trans hs, f3.trans hcb⟩
    rcases f4 with f4 | f4 | f4
    · simpa only [f4, Option.none_bind] using hc
    · simp only [f4, Option.some_bind, ProximityProfile_callback, if_true,
        ProximityProfile_invokeFromFWContext]
      exact changeCB_consistent _ _ hc
    · simp only [f4, Option.some_bind, ProximityProfile_callback, if_true,
        ProximityProfile_invokeFromFWContext]
      exact changeCB_consistent _ _ hc

theorem started_consistent : Consistent App.started := by
  decide

/-- C18 (counterexample): from the initialised state (Range 150, Sensitivity
3) the single step ProximityProfile_writeAttrCB with the out-of-range value
Range = 250 leaves the stored Range at 250 until the callback runs: the stored
value has changed and lies outside 20..200. -/
theorem write_step_breaks_semantic_range :
    inSemanticRange App.started.profile ∧
    App.started.profile.proximityProfile_Range = 150 ∧
    (runEvents App.started
      [Event.write rangeAttr [250] 1 0 SUCCESS]).profile.proximityProfile_Range = 250 ∧
    ¬ inSemanticRange
      (runEvents App.started [Event.write rangeAttr [250] 1 0 SUCCESS]).profile := by
  decide

theorem changeCB_range_effect (s : App)
    (hd : MIN_RANGE_VALUE ≤ s.driver.range ∧ s.driver.range ≤ MAX_RANGE_VALUE) :
    (Proximity_changeCB s PROXIMITYPROFILE_RANGE).profile.proximityProfile_Range
      = (Proximity_changeCB s PROXIMITYPROFILE_RANGE).driver.range ∧
    (MIN_RANGE_VALUE ≤ (Proximity_changeCB s PROXIMITYPROFILE_RANGE).driver.range ∧
      (Proximity_changeCB s PROXIMITYPROFILE_RANGE).driver.range ≤ MAX_RANGE_VALUE) ∧
    (Proximity_changeCB s PROXIMITYPROFILE_RANGE).profile.proximityProfile_Sensitivity
      = s.profile.proximityProfile_Sensitivity ∧
    (Proximity_changeCB s PROXIMITYPROFILE_RANGE).driver.sensitivity
      = s.driver.sensitivity ∧
    (Proximity_changeCB s PROXIMITYPROFILE_RANGE).profile.proximityProfile_appCBs
      = s.profile.proximityProfile_appCBs := by
  by_cases hin : s.profile.proximityProfile_Range ≥ MIN_RANGE_VALUE ∧
      s.profile.proximityProfile_Range ≤ MAX_RANGE_VALUE
  · have hm : s.profile.proximityProfile_Range % 65536 = s.profile.proximityProfile_Range := by
      have := hin.2
      simp only [MAX_RANGE_VALUE] at this
      omega
    have e : Proximity_changeCB s PROXIMITYPROFILE_RANGE =
        { s with driver :=
            startSensor (setRange (stopSensor s.driver) s.profile.proximityProfile_Range) } := by
      simp [Proximity_changeCB, ProximityProfile_getParameter, hin]
    rw [e]
    refine ⟨?_, ⟨?_, ?_⟩, rfl, ?_, rfl⟩
    · simp [startSensor, setRange, stopSensor, hm]
    · simpa [startSensor, setRange, stopSensor, hm] using hin.1
    · simpa [startSensor, setRange, stopSensor, hm] using hin.2
    · simp [startSensor, setRange, stopSensor]
  · have hm : s.driver.range % 65536 = s.driver.range := by
      have := hd.2
      simp only [MAX_RANGE_VALUE] at this
      omega
    have e : Proximity_changeCB s PROXIMITYPROFILE_RANGE =
        { s with profile := { s.profile with proximityProfile_Range := s.driver.range } } := by
      simp [Proximity_changeCB, ProximityProfile_getParameter, hin,
        ProximityProfile_setParameter, getRange, hm]
    rw [e]
    exact ⟨rfl, hd, rfl, rfl, rfl⟩

theorem changeCB_sensitivity_effect (s : App)
    (hd : MIN_SENSITIVITY_VALUE ≤ s.driver.sensitivity ∧
      s.driver.sensitivity ≤ MAX_SENSITIVITY_VALUE) :
    (Proximity_changeCB s PROXIMITYPROFILE_SENSITIVITY).profile.proximityProfile_Sensitivity
      = (Proximity_changeCB s PROXIMITYPROFILE_SENSITIVITY).driver.sensitivity ∧
    (MIN_SENSITIVITY_VALUE
        ≤ (Proximity_changeCB s PROXIMITYPROFILE_SENSITIVITY).driver.sensitivity ∧
      (Proximity_changeCB s PROXIMITYPROFILE_SENSITIVITY).driver.sensitivity
        ≤ MAX_SENSITIVITY_VALUE) ∧
    (Proximity_changeCB s PROXIMITYPROFILE_SENSITIVITY).profile.proximityProfile_Range
      = s.profile.proximityProfile_Range ∧
    (Proximity_changeCB s PROXIMITYPROFILE_SENSITIVITY).driver.range = s.driver.range ∧
    (Proximity_changeCB s PROXIMITYPROFILE_SENSITIVITY).profile.proximityProfile_appCBs
      = s.profile.proximityProfile_appCBs := by
  by_cases hin : s.profile.proximityProfile_Sensitivity ≥ MIN_SENSITIVITY_VALUE ∧
      s.profile.proximityProfile_Sensitivity ≤ MAX_SENSITIVITY_VALUE
  · have hm : s.profile.proximityProfile_Sensitivity % 256 =
        s.profile.proximityProfile_Sensitivity := by
      have := hin.2
      simp only [MAX_SENSITIVITY_VALUE] at this
      omega
    have e : Proximity_changeCB s PROXIMITYPROFILE_SENSITIVITY =
        { s with driver :=
            startSensor (setSensitivity (stopSensor s.driver)
              s.profile.proximityProfile_Sensitivity) } := by
      simp [Proximity_changeCB, ProximityProfile_getParameter, hin]
    rw [e]
    refine ⟨?_, ⟨?_, ?_⟩, rfl, ?_, rfl⟩
    · simp [startSensor, setSensitivity, stopSensor, hm]
    · simpa [startSensor, setSensitivity, stopSensor, hm] using hin.1
    · simpa [startSensor, setSensitivity, stopSensor, hm] using hin.2
    · simp [startSensor, setSensitivity, stopSensor]
  · have hm : s.driver.sensitivity % 256 = s.driver.sensitivity := by
      have := hd.2
      simp only [MAX_SENSITIVITY_VALUE] at this
      omega
    have e : Proximity_changeCB s PROXIMITYPROFILE_SENSITIVITY =
        { s with profile :=
            { s.profile with proximityProfile_Sensitivity := s.driver.sensitivity } } := by
      simp [Proximity_changeCB, ProximityProfile_getParameter, hin,
        ProximityProfile_setParameter, getSensitivity, hm]
    rw [e]
    exact ⟨rfl, hd, rfl, rfl, rfl⟩

theorem changeCB_other_effect (s : App) (paramId : Nat)
    (h1 : paramId ≠ PROXIMITYPROFILE_RANGE) (h2 : paramId ≠ PROXIMITYPROFILE_SENSITIVITY) :
    (Proximity_changeCB s paramId).profile = s.profile ∧
    (Proximity_changeCB s paramId).driver.range = s.driver.range ∧
    (Proximity_changeCB s paramId).driver.sensitivity = s.driver.sensitivity := by
  by_cases h3 : paramId = PROXIMITYPROFILE_TIMEOUT
  · subst h3
    simp [Proximity_changeCB, setPresenceTimeout]
  · simp [Proximity_changeCB, h1, h2, h3]

theorem changeCB_tracked (s : App) (paramId : Nat) (bR bS : Bool) (h : Tracked s bR bS) :
    Tracked (Proximity_changeCB s paramId)
      (if paramId = PROXIMITYPROFILE_RANGE then false else bR)
      (if paramId = PROXIMITYPROFILE_SENSITIVITY then false else bS) := by
  obtain ⟨hdr, hds, hcb, hR, hS⟩ := h
  by_cases h1 : paramId = PROXIMITYPROFILE_RANGE
  · subst h1
    obtain ⟨e1, e2, e3, e4, e5⟩ := changeCB_range_effect s hdr
    refine ⟨e2, e4 ▸ hds, e5.trans hcb, fun _ => e1, ?_⟩
    intro hb
    have hb2 : bS = false := by simpa using hb
    rw [e3, e4]
    exact hS hb2
  · by_cases h2 : paramId = PROXIMITYPROFILE_SENSITIVITY
    · subst h2
      obtain ⟨e1, e2, e3, e4, e5⟩ := changeCB_sensitivity_effect s hds
      refine ⟨e4 ▸ hdr, e2, e5.trans hcb, ?_, fun _ => e1⟩
      intro hb
      have hb2 : bR = false := by simpa using hb
      rw [e3, e4]
      exact hR hb2
    · obtain ⟨e1, e2, e3⟩ := changeCB_other_effect s paramId h1 h2
      refine ⟨e2 ▸ hdr, e3 ▸ hds, ?_, ?_, ?_⟩
      · rw [e1]; exact hcb
      · intro hb
        rw [e1, e2]
        exact hR (by simpa [h1] using hb)
      · intro hb
        rw [e1, e3]
        exact hS (by simpa [h2] using hb)

theorem hasUuid_iff (pAttr : gattAttribute_t) (uuid : Nat) :
    hasUuid pAttr uuid = true ↔
      pAttr.type_len = ATT_BT_UUID_SIZE ∧ BUILD_UINT16 pAttr.uuid0 pAttr.uuid1 = uuid := by
  simp [hasUuid]

theorem hasUuid_range_not_sensitivity (pAttr : gattAttribute_t)
    (h : hasUuid pAttr PROXIMITYPROFILE_RANGE_UUID = true) :
    hasUuid pAttr PROXIMITYPROFILE_SENSITIVITY_UUID = false := by
  have h1 := (hasUuid_iff pAttr _).1 h
  simp [hasUuid, h1.2]

theorem hasUuid_sensitivity_not_range (pAttr : gattAttribute_t)
    (h : hasUuid pAttr PROXIMITYPROFILE_SENSITIVITY_UUID = true) :
    hasUuid pAttr PROXIMITYPROFILE_RANGE_UUID = false := by
  have h1 := (hasUuid_iff pAttr _).1 h
  simp [hasUuid, h1.2]

theorem writeAttrCB_profile_frame (p : Profile) (pAttr : gattAttribute_t)
    (pValue : List Nat) (len offset : Nat) (cccStatus : bStatus_t) :
    (ProximityProfile_writeAttrCB p pAttr pValue len offset
      cccStatus).profile.proximityProfile_appCBs = p.proximityProfile_appCBs ∧
    (hasUuid pAttr PROXIMITYPROFILE_RANGE_UUID = false →
      (ProximityProfile_writeAttrCB p pAttr pValue len offset
        cccStatus).profile.proximityProfile_Range = p.proximityProfile_Range) ∧
    (hasUuid pAttr PROXIMITYPROFILE_SENSITIVITY_UUID = false →
      (ProximityProfile_writeAttrCB p pAttr pValue len offset
        cccStatus).profile.proximityProfile_Sensitivity = p.proximityProfile_Sensitivity) := by
  by_cases hR : hasUuid pAttr PROXIMITYPROFILE_RANGE_UUID = true
  · obtain ⟨hl, hu⟩ := (hasUuid_iff pAttr _).1 hR
    obtain ⟨f1, f2, _⟩ := writeAttrCB_range_frame p pAttr pValue len offset cccStatus hl hu
    exact ⟨f2, fun hn => absurd hR (by simp [hn]), fun _ => f1⟩
  · by_cases hS : hasUuid pAttr PROXIMITYPROFILE_SENSITIVITY_UUID = true
    · obtain ⟨hl, hu⟩ := (hasUuid_iff pAttr _).1 hS
      obtain ⟨f1, f2, _⟩ :=
        writeAttrCB_sensitivity_frame p pAttr pValue len offset cccStatus hl hu
      exact ⟨f2, fun _ => f1, fun hn => absurd hS (by simp [hn])⟩
    · obtain ⟨f1, f2, f3, _⟩ := writeAttrCB_other_frame p pAttr pValue len offset cccStatus
        (fun hh => hh.2.elim (fun e => hR ((hasUuid_iff pAttr _).2 ⟨hh.1, e⟩))
          (fun e => hS ((hasUuid_iff pAttr _).2 ⟨hh.1, e⟩)))
      exact ⟨f3, fun _ => f1, fun _ => f2⟩

theorem writeAttrCB_callback_cases (p : Profile) (pAttr : gattAttribute_t)
    (pValue : List Nat) (len offset : Nat) (cccStatus : bStatus_t)
    (hcb : p.proximityProfile_appCBs = true) :
    (hasUuid pAttr PROXIMITYPROFILE_RANGE_UUID = true →
      (ProximityProfile_writeAttrCB p pAttr pValue len offset cccStatus).callback
        = some PROXIMITYPROFILE_RANGE) ∧
    (hasUuid pAttr PROXIMITYPROFILE_SENSITIVITY_UUID = true →
      (ProximityProfile_writeAttrCB p pAttr pValue len offset cccStatus).callback
        = some PROXIMITYPROFILE_SENSITIVITY) ∧
    (hasUuid pAttr PROXIMITYPROFILE_RANGE_UUID = false →
      hasUuid pAttr PROXIMITYPROFILE_SENSITIVITY_UUID = false →
      (ProximityProfile_writeAttrCB p pAttr pValue len offset cccStatus).callback = none ∨
      (ProximityProfile_writeAttrCB p pAttr pValue len offset cccStatus).callback
        = some PROXIMITYPROFILE_DETECTION ∨
      (ProximityProfile_writeAttrCB p pAttr pValue len offset cccStatus).callback
        = some PROXIMITYPROFILE_TIMEOUT) := by
  refine ⟨?_, ?_, ?_⟩
  · intro hR
    obtain ⟨hl, hu⟩ := (hasUuid_iff pAttr _).1 hR
    obtain ⟨_, _, f3⟩ := writeAttrCB_range_frame p pAttr pValue len offset cccStatus hl hu
    rw [f3, if_pos hcb]
  · intro hS
    obtain ⟨hl, hu⟩ := (hasUuid_iff pAttr _).1 hS
    obtain ⟨_, _, f3⟩ :=
      writeAttrCB_sensitivity_frame p pAttr pValue len offset cccStatus hl hu
    rw [f3, if_pos hcb]
  · intro hR hS
    have hR1 : ¬ hasUuid pAttr PROXIMITYPROFILE_RANGE_UUID = true := by simp [hR]
    have hS1 : ¬ hasUuid pAttr PROXIMITYPROFILE_SENSITIVITY_UUID = true := by simp [hS]
    exact (writeAttrCB_other_frame p pAttr pValue len offset cccStatus
      (fun hh => hh.2.elim (fun e => hR1 ((hasUuid_iff pAttr _).2 ⟨hh.1, e⟩))
        (fun e => hS1 ((hasUuid_iff pAttr _).2 ⟨hh.1, e⟩)))).2.2.2

theorem write_tracked (s : App) (pAttr : gattAttribute_t) (pValue : List Nat)
    (len offset : Nat) (cccStatus : bStatus_t) (bR bS : Bool) (h : Tracked s bR bS) :
    Tracked
      { s with profile :=
          (ProximityProfile_writeAttrCB s.profile pAttr pValue len offset cccStatus).profile }
      (if hasUuid pAttr PROXIMITYPROFILE_RANGE_UUID then true else bR)
      (if hasUuid pAttr PROXIMITYPROFILE_SENSITIVITY_UUID then true else bS) := by
  obtain ⟨hdr, hds, hcb, hR, hS⟩ := h
  obtain ⟨f1, f2, f3⟩ :=
    writeAttrCB_profile_frame s.profile pAttr pValue len offset cccStatus
  refine ⟨hdr, hds, f1.trans hcb, ?_, ?_⟩
  · intro hb
    by_cases hu : hasUuid pAttr PROXIMITYPROFILE_RANGE_UUID = true
    · simp [hu] at hb
    · have hu2 : hasUuid pAttr PROXIMITYPROFILE_RANGE_UUID = false := by simpa using hu
      have hb2 : bR = false := by simpa [hu2] using hb
      exact (f2 hu2).trans (hR hb2)
  · intro hb
    by_cases hu : hasUuid pAttr PROXIMITYPROFILE_SENSITIVITY_UUID = true
    · simp [hu] at hb
    · have hu2 : hasUuid pAttr PROXIMITYPROFILE_SENSITIVITY_UUID = false := by
        simpa using hu
      have hb2 : bS = false := by simpa [hu2] using hb
      exact (f3 hu2).trans (hS hb2)

theorem peerWrite_tracked (s : App) (pAttr : gattAttribute_t) (pValue : List Nat)
    (len offset : Nat) (cccStatus : bStatus_t) (bR bS : Bool) (h : Tracked s bR bS) :
    Tracked (peerWrite s true pAttr pValue len offset cccStatus).2
      (if hasUuid pAttr PROXIMITYPROFILE_RANGE_UUID then false else bR)
      (if hasUuid pAttr PROXIMITYPROFILE_SENSITIVITY_UUID then false else bS) := by
  have hw := write_tracked s pAttr pValue len offset cccStatus bR bS h
  obtain ⟨c1, c2, c3⟩ :=
    writeAttrCB_callback_cases s.profile pAttr pValue len offset cccStatus h.2.2.1
  unfold peerWrite
  by_cases hR : hasUuid pAttr PROXIMITYPROFILE_RANGE_UUID = true
  · have hS := hasUuid_range_not_sensitivity pAttr hR
    have hc := changeCB_tracked _ PROXIMITYPROFILE_RANGE _ _ hw
    simp only [c1 hR, Option.some_bind, ProximityProfile_callback, if_true,
      ProximityProfile_invokeFromFWContext]
    simpa [hR, hS] using hc
  · have hR2 : hasUuid pAttr PROXIMITYPROFILE_RANGE_UUID = false := by simpa using hR
    by_cases hS : hasUuid pAttr PROXIMITYPROFILE_SENSITIVITY_UUID = true
    · have hc := changeCB_tracked _ PROXIMITYPROFILE_SENSITIVITY _ _ hw
      simp only [c2 hS, Option.some_bind, ProximityProfile_callback, if_true,
        ProximityProfile_invokeFromFWContext]
      simpa [hR2, hS] using hc
    · have hS2 : hasUuid pAttr PROXIMITYPROFILE_SENSITIVITY_UUID = false := by
        simpa using hS
      rcases c3 hR2 hS2 with f4 | f4 | f4
      · simp only [f4, Option.none_bind]
        simpa [hR2, hS2] using hw
      · have hc := changeCB_tracked _ PROXIMITYPROFILE_DETECTION _ _ hw
        simp only [f4, Option.some_bind, ProximityProfile_callback, if_true,
          ProximityProfile_invokeFromFWContext]
        simpa [hR2, hS2] using hc
      · have hc := changeCB_tracked _ PROXIMITYPROFILE_TIMEOUT _ _ hw
        simp only [f4, Option.some_bind, ProximityProfile_callback, if_true,
          ProximityProfile_invokeFromFWContext]
        simpa [hR2, hS2] using hc

theorem event_run_tracked (s : App) (e : Event) (bR bS : Bool) (h : Tracked s bR bS) :
    Tracked (Event.run s e)
      (Event.pendingAfter PROXIMITYPROFILE_RANGE_UUID PROXIMITYPROFILE_RANGE bR e)
      (Event.pendingAfter PROXIMITYPROFILE_SENSITIVITY_UUID PROXIMITYPROFILE_SENSITIVITY
        bS e) := by
  cases e with
  | write pAttr pValue len offset cccStatus =>
    exact write_tracked s pAttr pValue len offset cccStatus bR bS h
  | change paramId => exact changeCB_tracked s paramId bR bS h
  | transaction pAttr pValue len offset cccStatus =>
    exact peerWrite_tracked s pAttr pValue len offset cccStatus bR bS h

theorem runEvents_tracked (es : List Event) (s : App) (bR bS : Bool)
    (h : Tracked s bR bS) :
    Tracked (runEvents s es)
      (es.foldl (Event.pendingAfter PROXIMITYPROFILE_RANGE_UUID PROXIMITYPROFILE_RANGE) bR)
      (es.foldl
        (Event.pendingAfter PROXIMITYPROFILE_SENSITIVITY_UUID PROXIMITYPROFILE_SENSITIVITY)
        bS) := by
  induction es generalizing s bR bS with
  | nil => simpa [runEvents] using h
  | cons e rest ih =>
    have h1 := event_run_tracked s e bR bS h
    have h2 := ih _ _ _ h1
    simpa [runEvents] using h2

theorem started_tracked : Tracked App.started false false := by
  unfold Tracked
  decide

/-- C18 (amended): in every state reached from the initialised state (Range
150, Sensitivity 3) by any interleaving of peer-write steps
(ProximityProfile_writeAttrCB alone, or together with the Proximity_changeCB
it dispatches) and Proximity_changeCB steps, the range and the sensitivity the
driver holds lie in 20..200 and 1..6; the stored Range lies in 20..200 and
equals the driver range unless a write to Range still awaits its callback, and
the stored Sensitivity lies in 1..6 and equals the driver sensitivity unless a
write to Sensitivity still awaits its callback; in particular both hold once
the Range and the Sensitivity callbacks have run after the steps. -/
theorem semantic_range_holds_unless_callback_pending (es : List Event) :
    ((MIN_RANGE_VALUE ≤ getRange (runEvents App.started es).driver ∧
        getRange (runEvents App.started es).driver ≤ MAX_RANGE_VALUE) ∧
      (MIN_SENSITIVITY_VALUE ≤ getSensitivity (runEvents App.started es).driver ∧
        getSensitivity (runEvents App.started es).driver ≤ MAX_SENSITIVITY_VALUE)) ∧
    (rangePending es = false →
      MIN_RANGE_VALUE ≤ (runEvents App.started es).profile.proximityProfile_Range ∧
      (runEvents App.started es).profile.proximityProfile_Range ≤ MAX_RANGE_VALUE ∧
      (runEvents App.started es).profile.proximityProfile_Range
        = getRange (runEvents App.started es).driver) ∧
    (sensitivityPending es = false →
      MIN_SENSITIVITY_VALUE
        ≤ (runEvents App.started es).profile.proximityProfile_Sensitivity ∧
      (runEvents App.started es).profile.proximityProfile_Sensitivity
        ≤ MAX_SENSITIVITY_VALUE ∧
      (runEvents App.started es).profile.proximityProfile_Sensitivity
        = getSensitivity (runEvents App.started es).driver) ∧
    inSemanticRange
      (runEvents App.started
        (es ++ [Event.change PROXIMITYPROFILE_RANGE,
                Event.change PROXIMITYPROFILE_SENSITIVITY])).profile := by
  obtain ⟨hdr, hds, _, hR, hS⟩ := runEvents_tracked es App.started false false started_tracked
  refine ⟨⟨hdr, hds⟩, ?_, ?_, ?_⟩
  · intro hp
    have e := hR hp
    exact ⟨e ▸ hdr.1, e ▸ hdr.2, e⟩
  · intro hp
    have e := hS hp
    exact ⟨e ▸ hds.1, e ▸ hds.2, e⟩
  · obtain ⟨gdr, gds, _, gR, gS⟩ :=
      runEvents_tracked
        (es ++ [Event.change PROXIMITYPROFILE_RANGE,
                Event.change PROXIMITYPROFILE_SENSITIVITY])
        App.started false false started_tracked
    have eR := gR (by simp [List.foldl_append, Event.pendingAfter])
    have eS := gS (by simp [List.foldl_append, Event.pendingAfter])
    unfold inSemanticRange
    exact ⟨eR ▸ gdr.1, eR ▸ gdr.2, eS ▸ gds.1, eS ▸ gds.2⟩

/-- Witness for C18 (amended): bare writes of Range = 250 and Sensitivity = 7,
their callbacks running later in the opposite order, then a bare write of
Range = 251 whose callback has not run yet. After the steps no Sensitivity
write is pending and the stored Sensitivity is in 1..6; before the last write
no Range write is pending either and the stored Range is in 20..200. -/
theorem semantic_range_holds_unless_callback_pending_witness :
    (MIN_RANGE_VALUE ≤ (runEvents App.started
        [Event.write rangeAttr [250] 1 0 SUCCESS,
         Event.write sensitivityAttr [7] 1 0 SUCCESS,
         Event.change PROXIMITYPROFILE_SENSITIVITY,
         Event.change PROXIMITYPROFILE_RANGE]).profile.proximityProfile_Range ∧
      (runEvents App.started
        [Event.write rangeAttr [250] 1 0 SUCCESS,
         Event.write sensitivityAttr [7] 1 0 SUCCESS,
         Event.change PROXIMITYPROFILE_SENSITIVITY,
         Event.change PROXIMITYPROFILE_RANGE]).profile.proximityProfile_Range
        ≤ MAX_RANGE_VALUE ∧
      (runEvents App.started
        [Event.write rangeAttr [250] 1 0 SUCCESS,
         Event.write sensitivityAttr [7] 1 0 SUCCESS,
         Event.change PROXIMITYPROFILE_SENSITIVITY,
         Event.change PROXIMITYPROFILE_RANGE]).profile.proximityProfile_Range
        = getRange (runEvents App.started
        [Event.write rangeAttr [250] 1 0 SUCCESS,
         Event.write sensitivityAttr [7] 1 0 SUCCESS,
         Event.change PROXIMITYPROFILE_SENSITIVITY,
         Event.change PROXIMITYPROFILE_RANGE]).driver) ∧
    (MIN_SENSITIVITY_VALUE ≤ (runEvents App.started
        [Event.write rangeAttr [250] 1 0 SUCCESS,
         Event.write sensitivityAttr [7] 1 0 SUCCESS,
         Event.change PROXIMITYPROFILE_SENSITIVITY,
         Event.change PROXIMITYPROFILE_RANGE,
         Event.write rangeAttr [251] 1 0 SUCCESS]).profile.proximityProfile_Sensitivity ∧
      (runEvents App.started
        [Event.write rangeAttr [250] 1 0 SUCCESS,
         Event.write sensitivityAttr [7] 1 0 SUCCESS,
         Event.change PROXIMITYPROFILE_SENSITIVITY,
         Event.change PROXIMITYPROFILE_RANGE,
         Event.write rangeAttr [251] 1 0 SUCCESS]).profile.proximityProfile_Sensitivity
        ≤ MAX_SENSITIVITY_VALUE ∧
      (runEvents App.started
        [Event.write rangeAttr [250] 1 0 SUCCESS,
         Event.write sensitivityAttr [7] 1 0 SUCCESS,
         Event.change PROXIMITYPROFILE_SENSITIVITY,
         Event.change PROXIMITYPROFILE_RANGE,
         Event.write rangeAttr [251] 1 0 SUCCESS]).profile.proximityProfile_Sensitivity
        = getSensitivity (runEvents App.started
        [Event.write rangeAttr [250] 1 0 SUCCESS,
         Event.write sensitivityAttr [7] 1 0 SUCCESS,
         Event.change PROXIMITYPROFILE_SENSITIVITY,
         Event.change PROXIMITYPROFILE_RANGE,
         Event.write rangeAttr [251] 1 0 SUCCESS]).driver) ∧
    rangePending
        [Event.write rangeAttr [250] 1 0 SUCCESS,
         Event.write sensitivityAttr [7] 1 0 SUCCESS,
         Event.change PROXIMITYPROFILE_SENSITIVITY,
         Event.change PROXIMITYPROFILE_RANGE,
         Event.write rangeAttr [251] 1 0 SUCCESS] = true :=
  ⟨(semantic_range_holds_unless_callback_pending
      [Event.write rangeAttr [250] 1 0 SUCCESS,
       Event.write sensitivityAttr [7] 1 0 SUCCESS,
       Event.change PROXIMITYPROFILE_SENSITIVITY,
       Event.change PROXIMITYPROFILE_RANGE]).2.1 (by decide),
   (semantic_range_holds_unless_callback_pending
      [Event.write rangeAttr [250] 1 0 SUCCESS,
       Event.write sensitivityAttr [7] 1 0 SUCCESS,
       Event.change PROXIMITYPROFILE_SENSITIVITY,
       Event.change PROXIMITYPROFILE_RANGE,
       Event.write rangeAttr [251] 1 0 SUCCESS]).2.2.1 (by decide),
   by decide⟩

/-! ### Connection lifecycle as a state machine -/

/-- C19: the connection lifecycle evaluated on the code. From (0 links, sensor
stopped) a connect followed by a disconnect ends with 0 links and the sensor
still running, and two connects followed by one disconnect end with 1 link and
the sensor stopped: the sensor state is the opposite of what the link count
calls for after a disconnect. -/
theorem lifecycle_running_disagrees_with_link_count :
    ((disconnect (connect ⟨0, Driver.fresh⟩)).numActive = 0 ∧
      (disconnect (connect ⟨0, Driver.fresh⟩)).driver.running = true ∧
      (disconnect (connect ⟨0, Driver.fresh⟩)).driver.calls = [DriverCall.startSensor]) ∧
    ((disconnect (connect (connect ⟨0, Driver.fresh⟩))).numActive = 1 ∧
      (disconnect (connect (connect ⟨0, Driver.fresh⟩))).driver.running = false ∧
      (disconnect (connect (connect ⟨0, Driver.fresh⟩))).driver.calls
        = [DriverCall.startSensor, DriverCall.startSensor, DriverCall.stopSensor]) := by
  decide

/-! ### The parameter store: round trip, statuses, failure -/

/-- C21: for each of Detection, Range, Sensitivity and Timeout and every value
v of the width of the parameter, ProximityProfile_setParameter with the
matching length (1 for Detection and Sensitivity, 2 for Range and Timeout)
returns SUCCESS, the following ProximityProfile_getParameter of that id
returns SUCCESS and yields v, and the other three stored values are unchanged. -/
theorem setParameter_getParameter_round_trip (p : Profile) (v8 v16 : Nat)
    (h8 : v8 < 256) (h16 : v16 < 65536) :
    ((ProximityProfile_setParameter p PROXIMITYPROFILE_DETECTION 1 v8).1 = SUCCESS ∧
      ProximityProfile_getParameter
        (ProximityProfile_setParameter p PROXIMITYPROFILE_DETECTION 1 v8).2
        PROXIMITYPROFILE_DETECTION = (SUCCESS, some v8) ∧
      (ProximityProfile_setParameter p PROXIMITYPROFILE_DETECTION 1
        v8).2.proximityProfile_Range = p.proximityProfile_Range ∧
      (ProximityProfile_setParameter p PROXIMITYPROFILE_DETECTION 1
        v8).2.proximityProfile_Sensitivity = p.proximityProfile_Sensitivity ∧
      (ProximityProfile_setParameter p PROXIMITYPROFILE_DETECTION 1
        v8).2.proximityProfile_Timeout = p.proximityProfile_Timeout) ∧
    ((ProximityProfile_setParameter p PROXIMITYPROFILE_RANGE 2 v16).1 = SUCCESS ∧
      ProximityProfile_getParameter
        (ProximityProfile_setParameter p PROXIMITYPROFILE_RANGE 2 v16).2
        PROXIMITYPROFILE_RANGE = (SUCCESS, some v16) ∧
      (ProximityProfile_setParameter p PROXIMITYPROFILE_RANGE 2
        v16).2.proximityProfile_Detection = p.proximityProfile_Detection ∧
      (ProximityProfile_setParameter p PROXIMITYPROFILE_RANGE 2
        v16).2.proximityProfile_Sensitivity = p.proximityProfile_Sensitivity ∧
      (ProximityProfile_setParameter p PROXIMITYPROFILE_RANGE 2
        v16).2.proximityProfile_Timeout = p.proximityProfile_Timeout) ∧
    ((ProximityProfile_setParameter p PROXIMITYPROFILE_SENSITIVITY 1 v8).1 = SUCCESS ∧
      ProximityProfile_getParameter
        (ProximityProfile_setParameter p PROXIMITYPROFILE_SENSITIVITY 1 v8).2
        PROXIMITYPROFILE_SENSITIVITY = (SUCCESS, some v8) ∧
      (ProximityProfile_setParameter p PROXIMITYPROFILE_SENSITIVITY 1
        v8).2.proximityProfile_Detection = p.proximityProfile_Detection ∧
      (ProximityProfile_setParameter p PROXIMITYPROFILE_SENSITIVITY 1
        v8).2.proximityProfile_Range = p.proximityProfile_Range ∧
      (ProximityProfile_setParameter p PROXIMITYPROFILE_SENSITIVITY 1
        v8).2.proximityProfile_Timeout = p.proximityProfile_Timeout) ∧
    ((ProximityProfile_setParameter p PROXIMITYPROFILE_TIMEOUT 2 v16).1 = SUCCESS ∧
      ProximityProfile_getParameter
        (ProximityProfile_setParameter p PROXIMITYPROFILE_TIMEOUT 2 v16).2
        PROXIMITYPROFILE_TIMEOUT = (SUCCESS, some v16) ∧
      (ProximityProfile_setParameter p PROXIMITYPROFILE_TIMEOUT 2
        v16).2.proximityProfile_Detection = p.proximityProfile_Detection ∧
      (ProximityProfile_setParameter p PROXIMITYPROFILE_TIMEOUT 2
        v16).2.proximityProfile_Range = p.proximityProfile_Range ∧
      (ProximityProfile_setParameter p PROXIMITYPROFILE_TIMEOUT 2
        v16).2.proximityProfile_Sensitivity = p.proximityProfile_Sensitivity) := by
  simp [ProximityProfile_setParameter, ProximityProfile_getParameter,
    Nat.mod_eq_of_lt h8, Nat.mod_eq_of_lt h16]

/-- Witness for C21: Timeout := 10000 on the started application; the stored
Range and Sensitivity keep 150 and 3. -/
theorem setParameter_getParameter_round_trip_witness :
    (ProximityProfile_setParameter App.started.profile PROXIMITYPROFILE_TIMEOUT 2
        10000).1 = SUCCESS ∧
    ProximityProfile_getParameter
        (ProximityProfile_setParameter App.started.profile PROXIMITYPROFILE_TIMEOUT 2
          10000).2 PROXIMITYPROFILE_TIMEOUT = (SUCCESS, some 10000) ∧
    (ProximityProfile_setParameter App.started.profile PROXIMITYPROFILE_TIMEOUT 2
        10000).2.proximityProfile_Range = 150 ∧
    (ProximityProfile_setParameter App.started.profile PROXIMITYPROFILE_TIMEOUT 2
        10000).2.proximityProfile_Sensitivity = 3 :=
  ⟨(setParameter_getParameter_round_trip App.started.profile 4 10000 (by decide)
      (by decide)).2.2.2.1,
   (setParameter_getParameter_round_trip App.started.profile 4 10000 (by decide)
      (by decide)).2.2.2.2.1,
   by decide, by decide⟩

/-- C22: ProximityProfile_setParameter evaluated with a length that does not
match the width of a known parameter. For Detection, Range, Sensitivity and
Timeout alike it returns bleInvalidRange, a status that is neither SUCCESS nor
INVALIDPARAMETER. -/
theorem setParameter_length_mismatch_status (p : Profile) (v : Nat) :
    (ProximityProfile_setParameter p PROXIMITYPROFILE_DETECTION 2 v).1 = bleInvalidRange ∧
    (ProximityProfile_setParameter p PROXIMITYPROFILE_RANGE 1 v).1 = bleInvalidRange ∧
    (ProximityProfile_setParameter p PROXIMITYPROFILE_SENSITIVITY 2 v).1 = bleInvalidRange ∧
    (ProximityProfile_setParameter p PROXIMITYPROFILE_TIMEOUT 1 v).1 = bleInvalidRange ∧
    ¬ ((ProximityProfile_setParameter p PROXIMITYPROFILE_RANGE 1 v).1 = SUCCESS ∨
       (ProximityProfile_setParameter p PROXIMITYPROFILE_RANGE 1 v).1 = INVALIDPARAMETER) := by
  simp [ProximityProfile_setParameter]

/-- C26: ProximityProfile_setParameter is atomic on failure. Whenever the
returned status is not SUCCESS the statics are returned unchanged (the four
stored values and the notification log alike); and the status is not SUCCESS
for Detection or Sensitivity with a length other than 1, for Range or Timeout
with a length other than 2, and for every parameter id above 3. -/
theorem setParameter_failure_is_atomic (p : Profile) (param len value : Nat) :
    ((ProximityProfile_setParameter p param len value).1 ≠ SUCCESS →
      (ProximityProfile_setParameter p param len value).2 = p) ∧
    ((param = PROXIMITYPROFILE_DETECTION ∨ param = PROXIMITYPROFILE_SENSITIVITY) →
      len ≠ 1 → (ProximityProfile_setParameter p param len value).1 ≠ SUCCESS) ∧
    ((param = PROXIMITYPROFILE_RANGE ∨ param = PROXIMITYPROFILE_TIMEOUT) →
      len ≠ 2 → (ProximityProfile_setParameter p param len value).1 ≠ SUCCESS) ∧
    (3 < param → (ProximityProfile_setParameter p param len value).1 ≠ SUCCESS) := by
  refine ⟨?_, ?_, ?_, ?_⟩
  · unfold ProximityProfile_setParameter
    split_ifs <;> simp
  · rintro (h | h) hl <;> subst h <;> simp [ProximityProfile_setParameter, hl]
  · rintro (h | h) hl <;> subst h <;> simp [ProximityProfile_setParameter, hl]
  · intro h
    have h0 : param ≠ PROXIMITYPROFILE_DETECTION := by
      simp only [PROXIMITYPROFILE_DETECTION]; omega
    have h1 : param ≠ PROXIMITYPROFILE_RANGE := by
      simp only [PROXIMITYPROFILE_RANGE]; omega
    have h2 : param ≠ PROXIMITYPROFILE_SENSITIVITY := by
      simp only [PROXIMITYPROFILE_SENSITIVITY]; omega
    have h3 : param ≠ PROXIMITYPROFILE_TIMEOUT := by
      simp only [PROXIMITYPROFILE_TIMEOUT]; omega
    simp [ProximityProfile_setParameter, h0, h1, h2, h3]

/-- Witness for C26: Detection with length 2, Range with length 1 and the
unknown id 4 on the started application. -/
theorem setParameter_failure_is_atomic_witness :
    (ProximityProfile_setParameter App.started.profile PROXIMITYPROFILE_DETECTION 2 1).2
      = App.started.profile ∧
    (ProximityProfile_setParameter App.started.profile PROXIMITYPROFILE_DETECTION 2 1).1
      ≠ SUCCESS ∧
    (ProximityProfile_setParameter App.started.profile PROXIMITYPROFILE_RANGE 1 100).1
      ≠ SUCCESS ∧
    (ProximityProfile_setParameter App.started.profile 4 1 100).1 ≠ SUCCESS :=
  ⟨(setParameter_failure_is_atomic App.started.profile PROXIMITYPROFILE_DETECTION 2 1).1
      (by decide),
   (setParameter_failure_is_atomic App.started.profile PROXIMITYPROFILE_DETECTION 2 1).2.1
      (Or.inl rfl) (by decide),
   (setParameter_failure_is_atomic App.started.profile PROXIMITYPROFILE_RANGE 1 100).2.2.1
      (Or.inl rfl) (by decide),
   (setParameter_failure_is_atomic App.started.profile 4 1 100).2.2.2 (by decide)⟩

/-! ### The stored Detection value -/

theorem feed_detection_eq_last (raw : List Nat) (s : App)
    (h : s.profile.proximityProfile_Detection = s.last_detection)
    (hb : ∀ b ∈ raw, b < 256) :
    (feed s raw).profile.proximityProfile_Detection = (feed s raw).last_detection := by
  induction raw generalizing s with
  | nil => simpa [feed] using h
  | cons x rest ih =>
    have hx : x < 256 := hb x (List.mem_cons_self x rest)
    have h1 : (Proximity_on_proximity_evt s x).profile.proximityProfile_Detection =
        (Proximity_on_proximity_evt s x).last_detection := by
      rw [evt_detection, evt_last_detection]
      by_cases e : s.last_detection = x
      · rw [if_neg (not_not.mpr e), h, e]
      · rw [if_pos e, Nat.mod_eq_of_lt hx]
    have h2 := ih (Proximity_on_proximity_evt s x) h1
      (fun b hm => hb b (List.mem_cons_of_mem x hm))
    simpa [feed] using h2

theorem feed_last_detection_getLast (raw : List Nat) (s : App) (hne : raw ≠ []) :
    (feed s raw).last_detection = raw.getLast hne := by
  have e : raw = raw.dropLast ++ [raw.getLast hne] :=
    (List.dropLast_append_getLast hne).symm
  have e2 : feed s raw = feed s (raw.dropLast ++ [raw.getLast hne]) := by rw [← e]
  rw [e2, feed_snoc, evt_last_detection]

/-- C23: fed from the start-up state (stored Detection 0, last published value
0) with a non-empty sequence of raw detection bytes, the stored Detection that
ProximityProfile_getParameter yields afterwards is the last byte of the
sequence; and after every prefix of the sequence the stored Detection equals
the function static last_detection of Proximity_on_proximity_evt. -/
theorem stored_detection_is_last_byte (p : Profile) (d : Driver) (raw : List Nat)
    (hp : p.proximityProfile_Detection = 0) (hb : ∀ b ∈ raw, b < 256) (hne : raw ≠ []) :
    ProximityProfile_getParameter (feed (startup p d) raw).profile
        PROXIMITYPROFILE_DETECTION = (SUCCESS, some (raw.getLast hne)) ∧
    (∀ k, (feed (startup p d) (raw.take k)).profile.proximityProfile_Detection
        = (feed (startup p d) (raw.take k)).last_detection) := by
  have h0 : (startup p d).profile.proximityProfile_Detection =
      (startup p d).last_detection := hp
  constructor
  · have h1 := feed_detection_eq_last raw (startup p d) h0 hb
    have h2 := feed_last_detection_getLast raw (startup p d) hne
    simp [ProximityProfile_getParameter, h1, h2]
  · intro k
    exact feed_detection_eq_last (raw.take k) (startup p d) h0
      (fun b hm => hb b (List.mem_of_mem_take hm))

/-- Witness for C23: the sequence 0,0,1,1,0 fed to the started profile. -/
theorem stored_detection_is_last_byte_witness :
    ProximityProfile_getParameter
        (feed (startup App.started.profile Driver.fresh) [0, 0, 1, 1, 0]).profile
        PROXIMITYPROFILE_DETECTION
      = (SUCCESS, some (([0, 0, 1, 1, 0] : List Nat).getLast (by decide))) ∧
    (∀ k, (feed (startup App.started.profile Driver.fresh)
          (([0, 0, 1, 1, 0] : List Nat).take k)).profile.proximityProfile_Detection
        = (feed (startup App.started.profile Driver.fresh)
          (([0, 0, 1, 1, 0] : List Nat).take k)).last_detection) :=
  stored_detection_is_last_byte App.started.profile Driver.fresh [0, 0, 1, 1, 0]
    (by decide) (by decide) (by decide)

/-! ### Dispatch of the change callback -/

/-- C24: ProximityProfile_writeAttrCB evaluated on two writes it rejects. A
3-byte write to Timeout returns ATT_ERR_INVALID_VALUE_SIZE, yet
ProximityProfile_callback is called for Timeout and the callback makes the
driver call setPresenceTimeout(0); a 2-byte write to Sensitivity returns
ATT_ERR_INVALID_VALUE_SIZE, yet the callback runs stopSensor,
setSensitivity(3), startSensor. -/
theorem rejected_write_still_dispatches_callback :
    App.started.driver.calls = [] ∧
    ((ProximityProfile_writeAttrCB App.started.profile timeoutAttr [1, 2, 3] 3 0
        SUCCESS).status = ATT_ERR_INVALID_VALUE_SIZE ∧
      (ProximityProfile_writeAttrCB App.started.profile timeoutAttr [1, 2, 3] 3 0
        SUCCESS).callback = some PROXIMITYPROFILE_TIMEOUT ∧
      (peerWrite App.started true timeoutAttr [1, 2, 3] 3 0 SUCCESS).2.driver.calls
        = [DriverCall.setPresenceTimeout 0]) ∧
    ((ProximityProfile_writeAttrCB App.started.profile sensitivityAttr [1, 2] 2 0
        SUCCESS).status = ATT_ERR_INVALID_VALUE_SIZE ∧
      (ProximityProfile_writeAttrCB App.started.profile sensitivityAttr [1, 2] 2 0
        SUCCESS).callback = some PROXIMITYPROFILE_SENSITIVITY ∧
      (peerWrite App.started true sensitivityAttr [1, 2] 2 0 SUCCESS).2.driver.calls
        = [DriverCall.stopSensor, DriverCall.setSensitivity 3, DriverCall.startSensor]) := by
  decide

/-! ### Consistency of the store with the driver -/

theorem runWrites_consistent (ws : List PeerWrite) (s : App) (h : Consistent s) :
    Consistent (runWrites s ws) := by
  induction ws generalizing s with
  | nil => simpa [runWrites] using h
  | cons w rest ih =>
    have h1 := peerWrite_consistent s w.pAttr w.pValue w.len w.offset w.cccStatus h
    have h2 := ih _ h1
    simpa [runWrites] using h2

/-- C25: with the modelled driver (getRange and getSensitivity report the last
value set) and the change callback registered, start from a state whose stored
Range equals the driver range and lies in 20..200 and whose stored Sensitivity
equals the driver sensitivity and lies in 1..6. After any sequence of complete
peer writes (any attribute, Range and Sensitivity among them, any payload,
length and offset, accepted or rejected, each followed at once by the
Proximity_changeCB it dispatches) the stored Range still equals the driver
range and lies in 20..200, and the stored Sensitivity still equals the driver
sensitivity and lies in 1..6. -/
theorem store_and_driver_agree_after_writes (s : App) (ws : List PeerWrite)
    (hr : MIN_RANGE_VALUE ≤ s.profile.proximityProfile_Range ∧
      s.profile.proximityProfile_Range ≤ MAX_RANGE_VALUE)
    (hrd : s.profile.proximityProfile_Range = getRange s.driver)
    (hs : MIN_SENSITIVITY_VALUE ≤ s.profile.proximityProfile_Sensitivity ∧
      s.profile.proximityProfile_Sensitivity ≤ MAX_SENSITIVITY_VALUE)
    (hsd : s.profile.proximityProfile_Sensitivity = getSensitivity s.driver)
    (hcb : s.profile.proximityProfile_appCBs = true) :
    ((runWrites s ws).profile.proximityProfile_Range = getRange (runWrites s ws).driver ∧
      MIN_RANGE_VALUE ≤ (runWrites s ws).profile.proximityProfile_Range ∧
      (runWrites s ws).profile.proximityProfile_Range ≤ MAX_RANGE_VALUE) ∧
    ((runWrites s ws).profile.proximityProfile_Sensitivity
        = getSensitivity (runWrites s ws).driver ∧
      MIN_SENSITIVITY_VALUE ≤ (runWrites s ws).profile.proximityProfile_Sensitivity ∧
      (runWrites s ws).profile.proximityProfile_Sensitivity ≤ MAX_SENSITIVITY_VALUE) := by
  have h0 : Consistent s := by
    unfold Consistent inSemanticRange
    exact ⟨⟨hr.1, hr.2, hs.1, hs.2⟩, hrd, hsd, hcb⟩
  obtain ⟨⟨a1, a2, a3, a4⟩, a5, a6, _⟩ := runWrites_consistent ws s h0
  exact ⟨⟨a5, a1, a2⟩, ⟨a6, a3, a4⟩⟩

/-- Witness for C25: on the started application, Range = 250 (out of range),
Range = 100 (accepted), a Range write at offset 1 (rejected), Sensitivity = 7
(out of range) and a 2-byte Sensitivity write (rejected). -/
theorem store_and_driver_agree_after_writes_witness :
    (runWrites App.started
      [⟨rangeAttr, [250], 1, 0, SUCCESS⟩, ⟨rangeAttr, [100], 1, 0, SUCCESS⟩,
       ⟨rangeAttr, [60], 1, 1, SUCCESS⟩, ⟨sensitivityAttr, [7], 1, 0, SUCCESS⟩,
       ⟨sensitivityAttr, [1, 2], 2, 0, SUCCESS⟩]).profile.proximityProfile_Range = 100 ∧
    getRange (runWrites App.started
      [⟨rangeAttr, [250], 1, 0, SUCCESS⟩, ⟨rangeAttr, [100], 1, 0, SUCCESS⟩,
       ⟨rangeAttr, [60], 1, 1, SUCCESS⟩, ⟨sensitivityAttr, [7], 1, 0, SUCCESS⟩,
       ⟨sensitivityAttr, [1, 2], 2, 0, SUCCESS⟩]).driver = 100 ∧
    (runWrites App.started
      [⟨rangeAttr, [250], 1, 0, SUCCESS⟩, ⟨rangeAttr, [100], 1, 0, SUCCESS⟩,
       ⟨rangeAttr, [60], 1, 1, SUCCESS⟩, ⟨sensitivityAttr, [7], 1, 0, SUCCESS⟩,
       ⟨sensitivityAttr, [1, 2], 2, 0, SUCCESS⟩]).profile.proximityProfile_Sensitivity
      = getSensitivity (runWrites App.started
      [⟨rangeAttr, [250], 1, 0, SUCCESS⟩, ⟨rangeAttr, [100], 1, 0, SUCCESS⟩,
       ⟨rangeAttr, [60], 1, 1, SUCCESS⟩, ⟨sensitivityAttr, [7], 1, 0, SUCCESS⟩,
       ⟨sensitivityAttr, [1, 2], 2, 0, SUCCESS⟩]).driver :=
  ⟨by decide, by decide,
   (store_and_driver_agree_after_writes App.started
      [⟨rangeAttr, [250], 1, 0, SUCCESS⟩, ⟨rangeAttr, [100], 1, 0, SUCCESS⟩,
       ⟨rangeAttr, [60], 1, 1, SUCCESS⟩, ⟨sensitivityAttr, [7], 1, 0, SUCCESS⟩,
       ⟨sensitivityAttr, [1, 2], 2, 0, SUCCESS⟩]
      (by decide) (by decide) (by decide) (by decide) (by decide)).2.1⟩

end ProximityDemos
